import Mathlib

/-!
Verification of the console-rental backend core: the availability engine,
the pricing engine, the rental lifecycle manager and the payment
reconciliation layer.  All definitions are shallow embeddings of the
Python service layer (`apps/rentals/availability_service.py`,
`apps/rentals/rental_service.py`, `apps/payments/services.py`,
`apps/payments/views.py`, `apps/payments/models.py`).

Conventions of the embedding:
* money (Django `DecimalField`, exact 2-digit decimals) is embedded in `ℚ`;
* dates are day numbers in `ℤ`, so Python's `(e - s).days` is `e - s`;
* database tables are lists of row structures;
* fallible operations return `Except String`; Django's `transaction.atomic`
  is modelled by the fact that an `Except.error` result carries no state,
  so a failed operation leaves the store exactly as it was.
-/

namespace ConsoleRental

/-- Money: exact decimal currency amounts, embedded in the rationals. -/
abbrev Money : Type := ℚ

/-- Calendar dates as day numbers; `e - s` embeds Python's `(e - s).days`. -/
abbrev Day : Type := ℤ

/-- `RentalStatus` choices (`apps/rentals/models.py`). -/
inductive RentalStatus
  | pending
  | confirmed
  | active
  | returned
  | late
  | cancelled
  | overdue
  deriving DecidableEq, Repr

/-- `RentalType` choices: the rate plan selected for a rental. -/
inductive RentalType
  | daily
  | weekly
  | monthly
  deriving DecidableEq, Repr

/-- Rental-side `PaymentStatus` choices (`unpaid`, `partially_paid`, `paid`,
`refunded`). -/
inductive RentalPaymentStatus
  | unpaid
  | partiallyPaid
  | paid
  | refunded
  deriving DecidableEq, Repr

/-- `Console` rows: the fields the rental core reads and writes. -/
structure Console where
  id : ℕ
  name : String
  dailyPrice : Money
  weeklyPrice : Money
  monthlyPrice : Money
  securityDeposit : Money
  stockQuantity : ℕ
  availableQuantity : ℤ
  deriving DecidableEq, Repr

/-- `Game` rows.  A game has only daily and (possibly zero) weekly prices. -/
structure Game where
  id : ℕ
  title : String
  dailyPrice : Money
  weeklyPrice : Money
  stockQuantity : ℕ
  availableQuantity : ℤ
  deriving DecidableEq, Repr

/-- `Accessory` rows.  An accessory has only a per-day price. -/
structure Accessory where
  id : ℕ
  name : String
  pricePerDay : Money
  stockQuantity : ℕ
  availableQuantity : ℤ
  deriving DecidableEq, Repr

/-- `Rental` rows: the fields the rental core reads and writes.  The
many-to-many `games` / `accessories` sets are embedded as id lists
(deduplicated on creation, mirroring Django's m2m `set`); presentation-only
fields (delivery info, rental number) are omitted as no claim touches them. -/
structure Rental where
  id : ℕ
  consoleId : Option ℕ
  gameIds : List ℕ
  accessoryIds : List ℕ
  rentalType : RentalType
  status : RentalStatus
  rentalStartDate : Day
  rentalEndDate : Day
  actualReturnDate : Option Day
  dailyRate : Money
  totalPrice : Money
  depositAmount : Money
  lateFee : Money
  paymentStatus : RentalPaymentStatus
  deriving DecidableEq, Repr

/-! ## Pricing engine (`rental_service.py`) -/

/-- `_price_for_item`: pick the rate bucket for the selected plan; the weekly
and monthly plans use `divmod` remainder-day handling. -/
def priceForItem (daily weekly monthly : Money) (rentalType : RentalType)
    (durationDays : ℕ) : Money :=
  match rentalType with
  | .weekly =>
      weekly * ((durationDays / 7 : ℕ) : Money)
        + daily * ((durationDays % 7 : ℕ) : Money)
  | .monthly =>
      monthly * ((durationDays / 30 : ℕ) : Money)
        + daily * ((durationDays % 30 : ℕ) : Money)
  | .daily => daily * (durationDays : Money)

/-- Per-game pricing inside `calculate_rental_price`: a game's weekly rate
defaults to `daily_price * 7` when its `weekly_price` is zero (Python's
`game.weekly_price or game.daily_price * 7`), and its monthly rate is always
the synthetic `game.daily_price * 30`. -/
def gameItemPrice (g : Game) (rentalType : RentalType) (durationDays : ℕ) : Money :=
  priceForItem g.dailyPrice
    (if g.weeklyPrice = 0 then g.dailyPrice * 7 else g.weeklyPrice)
    (g.dailyPrice * 30) rentalType durationDays

/-- The price-breakdown dict returned by `calculate_rental_price`. -/
structure PriceBreakdown where
  consolePrice : Money
  gamesPrice : Money
  accessoriesPrice : Money
  totalPrice : Money
  depositAmount : Money
  dailyRate : Money
  durationDays : ℤ
  deriving DecidableEq, Repr

/-- `calculate_rental_price`: console priced from its own three rates, games
via `gameItemPrice`, accessories always at `price_per_day × duration_days`;
fails when the duration is not positive. -/
def calculateRentalPrice (console : Option Console) (games : List Game)
    (accessories : List Accessory) (rentalType : RentalType)
    (rentalStartDate rentalEndDate : Day) : Except String PriceBreakdown :=
  let durationDays := rentalEndDate - rentalStartDate
  if durationDays ≤ 0 then
    .error "rental_end_date must be after rental_start_date"
  else
    let d := durationDays.toNat
    let consolePrice : Money :=
      match console with
      | some c => priceForItem c.dailyPrice c.weeklyPrice c.monthlyPrice rentalType d
      | none => 0
    let depositAmount : Money :=
      match console with
      | some c => c.securityDeposit
      | none => 0
    let dailyRate : Money :=
      match console with
      | some c => c.dailyPrice
      | none => 0
    let gamesPrice : Money :=
      games.foldl (fun acc g => acc + gameItemPrice g rentalType d) 0
    let accessoriesPrice : Money :=
      accessories.foldl (fun acc a => acc + a.pricePerDay * (d : Money)) 0
    .ok {
      consolePrice := consolePrice
      gamesPrice := gamesPrice
      accessoriesPrice := accessoriesPrice
      totalPrice := consolePrice + gamesPrice + accessoriesPrice
      depositAmount := depositAmount
      dailyRate := dailyRate
      durationDays := durationDays
    }

/-! ## Late fees (`rental_service.py`) -/

def LATE_FEE_PER_DAY_CONSOLE : Money := 150

def LATE_FEE_PER_DAY_GAME : Money := 30

def LATE_FEE_PER_DAY_ACCESSORY : Money := 20

/-- `calculate_late_fee`: only days past `rental_end_date` count; the
`returnDate` argument stands for the source's
`return_date or timezone.now().date()`. -/
def calculateLateFee (r : Rental) (returnDate : Day) : Money :=
  let overdueDays := returnDate - r.rentalEndDate
  if overdueDays ≤ 0 then 0
  else
    (if r.consoleId.isSome then LATE_FEE_PER_DAY_CONSOLE * (overdueDays : Money) else 0)
      + LATE_FEE_PER_DAY_GAME * (r.gameIds.length : Money) * (overdueDays : Money)
      + LATE_FEE_PER_DAY_ACCESSORY * (r.accessoryIds.length : Money) * (overdueDays : Money)

/-! ## Availability engine (`availability_service.py`) -/

/-- `BLOCKING_STATUSES`: rental statuses that hold inventory. -/
def BLOCKING_STATUSES : List RentalStatus :=
  [.pending, .confirmed, .active, .late, .overdue]

/-- `_blocking_overlap_q`: a stored rental blocks the window `[s, e)` iff its
status is blocking and `rental_start_date < e ∧ rental_end_date > s`. -/
def blockingOverlapQ (s e : Day) (r : Rental) : Bool :=
  decide (r.status ∈ BLOCKING_STATUSES) && decide (r.rentalStartDate < e)
    && decide (r.rentalEndDate > s)

/-- The optional `exclude(pk=exclude_rental_id)` clause of the count queries. -/
def notExcluded (excludeRentalId : Option ℕ) (r : Rental) : Bool :=
  match excludeRentalId with
  | none => true
  | some i => decide (r.id ≠ i)

/-- `_count_overlapping_console_rentals`: blocking rentals of this console
overlapping the window, optionally excluding one rental id. -/
def countOverlappingConsoleRentals (db : List Rental) (consoleId : ℕ)
    (s e : Day) (excludeRentalId : Option ℕ) : ℕ :=
  (((db.filter (fun r => decide (r.consoleId = some consoleId))).filter
      (blockingOverlapQ s e)).filter (notExcluded excludeRentalId)).length

/-- The per-game entry of the dict `_count_overlapping_game_rentals` builds
from its single grouped query: the number of distinct blocking rentals
holding this game that overlap the window. -/
def countOverlappingGameRentals (db : List Rental) (gid : ℕ)
    (s e : Day) (excludeRentalId : Option ℕ) : ℕ :=
  (((db.filter (fun r => decide (gid ∈ r.gameIds))).filter
      (blockingOverlapQ s e)).filter (notExcluded excludeRentalId)).length

/-- The per-accessory entry of the dict `_count_overlapping_accessory_rentals`
builds from its single grouped query. -/
def countOverlappingAccessoryRentals (db : List Rental) (aid : ℕ)
    (s e : Day) (excludeRentalId : Option ℕ) : ℕ :=
  (((db.filter (fun r => decide (aid ∈ r.accessoryIds))).filter
      (blockingOverlapQ s e)).filter (notExcluded excludeRentalId)).length

/-- The `AvailabilityResult` dataclass. -/
structure AvailabilityResult where
  itemId : ℕ
  itemType : String
  itemName : String
  isAvailable : Bool
  stockQuantity : ℕ
  overlappingRentals : ℕ
  availableForDates : ℤ
  deriving DecidableEq, Repr

/-- Body of `check_console_availability` after its date guard. -/
def consoleAvailabilityResult (db : List Rental) (c : Console) (s e : Day)
    (excludeRentalId : Option ℕ) : AvailabilityResult :=
  let overlapping := countOverlappingConsoleRentals db c.id s e excludeRentalId
  let availableForDates : ℤ := (c.stockQuantity : ℤ) - (overlapping : ℤ)
  { itemId := c.id
    itemType := "console"
    itemName := c.name
    isAvailable := decide (availableForDates > 0)
    stockQuantity := c.stockQuantity
    overlappingRentals := overlapping
    availableForDates := max availableForDates 0 }

/-- `check_console_availability`: fails when `end ≤ start`. -/
def checkConsoleAvailability (db : List Rental) (c : Console) (s e : Day)
    (excludeRentalId : Option ℕ) : Except String AvailabilityResult :=
  if e ≤ s then .error "end date must be after start date"
  else .ok (consoleAvailabilityResult db c s e excludeRentalId)

/-- Body of `check_game_availability` after its date guard; the overlap count
is the dict entry `counts.get(game.pk, 0)`. -/
def gameAvailabilityResult (db : List Rental) (g : Game) (s e : Day)
    (excludeRentalId : Option ℕ) : AvailabilityResult :=
  let overlapping := countOverlappingGameRentals db g.id s e excludeRentalId
  let availableForDates : ℤ := (g.stockQuantity : ℤ) - (overlapping : ℤ)
  { itemId := g.id
    itemType := "game"
    itemName := g.title
    isAvailable := decide (availableForDates > 0)
    stockQuantity := g.stockQuantity
    overlappingRentals := overlapping
    availableForDates := max availableForDates 0 }

/-- `check_game_availability`. -/
def checkGameAvailability (db : List Rental) (g : Game) (s e : Day)
    (excludeRentalId : Option ℕ) : Except String AvailabilityResult :=
  if e ≤ s then .error "end date must be after start date"
  else .ok (gameAvailabilityResult db g s e excludeRentalId)

/-- Body of `check_accessory_availability` after its date guard. -/
def accessoryAvailabilityResult (db : List Rental) (a : Accessory) (s e : Day)
    (excludeRentalId : Option ℕ) : AvailabilityResult :=
  let overlapping := countOverlappingAccessoryRentals db a.id s e excludeRentalId
  let availableForDates : ℤ := (a.stockQuantity : ℤ) - (overlapping : ℤ)
  { itemId := a.id
    itemType := "accessory"
    itemName := a.name
    isAvailable := decide (availableForDates > 0)
    stockQuantity := a.stockQuantity
    overlappingRentals := overlapping
    availableForDates := max availableForDates 0 }

/-- `check_accessory_availability`. -/
def checkAccessoryAvailability (db : List Rental) (a : Accessory) (s e : Day)
    (excludeRentalId : Option ℕ) : Except String AvailabilityResult :=
  if e ≤ s then .error "end date must be after start date"
  else .ok (accessoryAvailabilityResult db a s e excludeRentalId)

/-! ## Bulk availability with query accounting (`check_bulk_availability`) -/

/-- `_count_overlapping_console_rentals` always issues exactly one aggregate
query (`qs.count()`). -/
def consoleOverlapQueryCount : ℕ := 1

/-- `_count_overlapping_game_rentals` issues zero queries on an empty id list
(early return of the empty dict) and otherwise one single grouped query. -/
def gameOverlapQueryCount (gameIds : List ℕ) : ℕ :=
  if gameIds.isEmpty then 0 else 1

/-- `_count_overlapping_accessory_rentals`: same query accounting as the game
variant. -/
def accessoryOverlapQueryCount (accessoryIds : List ℕ) : ℕ :=
  if accessoryIds.isEmpty then 0 else 1

/-- The `BulkAvailabilityResult` dataclass. -/
structure BulkAvailabilityResult where
  console : Option AvailabilityResult
  games : List AvailabilityResult
  accessories : List AvailabilityResult
  deriving DecidableEq, Repr

/-- Total aggregate queries issued by `check_bulk_availability`: one for the
console if present, plus the grouped game query and the grouped accessory
query. -/
def bulkAvailabilityQueryCount (console : Option Console) (games : List Game)
    (accessories : List Accessory) : ℕ :=
  (match console with
   | some _ => consoleOverlapQueryCount
   | none => 0)
  + gameOverlapQueryCount (games.map Game.id)
  + accessoryOverlapQueryCount (accessories.map Accessory.id)

/-- `check_bulk_availability`, instrumented with the number of aggregate
database queries it issues.  Per-item verdicts are built from the shared
grouped-query dict entries. -/
def checkBulkAvailability (db : List Rental) (console : Option Console)
    (games : List Game) (accessories : List Accessory) (s e : Day)
    (excludeRentalId : Option ℕ) :
    Except String (BulkAvailabilityResult × ℕ) :=
  if e ≤ s then .error "end date must be after start date"
  else
    .ok ({
      console := console.map (fun c => consoleAvailabilityResult db c s e excludeRentalId)
      games := games.map (fun g => gameAvailabilityResult db g s e excludeRentalId)
      accessories :=
        accessories.map (fun a => accessoryAvailabilityResult db a s e excludeRentalId)
    }, bulkAvailabilityQueryCount console games accessories)

/-! ## Payments (`apps/payments/models.py`, `services.py`, `views.py`) -/

/-- Payment-side `PaymentStatus` choices. -/
inductive PayStatus
  | pending
  | processing
  | completed
  | failed
  | expired
  | refunded
  | partiallyRefunded
  deriving DecidableEq, Repr

/-- `PaymentType` choices. -/
inductive PayType
  | rental
  | deposit
  | lateFee
  | damage
  | refund
  deriving DecidableEq, Repr

/-- `Payment` rows; `rentalIdx` embeds the foreign key to the owning rental
as an index into the rentals table. -/
structure Payment where
  id : ℕ
  rentalIdx : ℕ
  paymentType : PayType
  status : PayStatus
  amount : Money
  stripeCheckoutSessionId : String
  transactionId : String
  stripeChargeId : String
  failureReason : String
  deriving DecidableEq, Repr

/-- `Payment.is_refundable`: completed or partially refunded, and carrying a
non-empty transaction id. -/
def Payment.isRefundable (p : Payment) : Bool :=
  (decide (p.status = .completed) || decide (p.status = .partiallyRefunded))
    && decide (p.transactionId ≠ "")

/-- The payment-relevant slice of the database: payments and rentals. -/
structure PayDb where
  payments : List Payment
  rentals : List Rental
  deriving DecidableEq, Repr

/-- `handle_checkout_completed`: locate the payment by checkout-session id
(a missing payment is logged and swallowed), populate the transaction id
and — when the gateway lookup succeeds — the charge id, set the payment to
completed, then update the owning rental: rental/deposit payments mark it
paid and advance a pending rental to confirmed; late-fee payments change no
rental status.  `latestCharge` stands for
`stripe.PaymentIntent.retrieve(...).latest_charge or ""`; `none` models the
gateway error the source swallows, leaving the charge id untouched. -/
def handleCheckoutCompleted (db : PayDb) (sessionId paymentIntentId : String)
    (latestCharge : String → Option String) : PayDb :=
  match db.payments.findIdx? (fun p => decide (p.stripeCheckoutSessionId = sessionId)) with
  | none => db
  | some i =>
    match db.payments[i]? with
    | none => db
    | some p =>
      let p1 : Payment :=
        { p with
          transactionId := paymentIntentId
          status := .completed
          stripeChargeId :=
            if paymentIntentId ≠ "" then
              match latestCharge paymentIntentId with
              | some ch => ch
              | none => p.stripeChargeId
            else p.stripeChargeId }
      let rentals1 :=
        match db.rentals[p1.rentalIdx]? with
        | some r =>
          if p1.paymentType = .rental ∨ p1.paymentType = .deposit then
            db.rentals.set p1.rentalIdx
              { r with
                paymentStatus := .paid
                status := if r.status = .pending then .confirmed else r.status }
          else db.rentals
        | none => db.rentals
      { payments := db.payments.set i p1, rentals := rentals1 }

/-- `handle_checkout_expired`. -/
def handleCheckoutExpired (db : PayDb) (sessionId : String) : PayDb :=
  match db.payments.findIdx? (fun p => decide (p.stripeCheckoutSessionId = sessionId)) with
  | none => db
  | some i =>
    match db.payments[i]? with
    | none => db
    | some p =>
      let p1 : Payment :=
        { p with status := .expired, failureReason := "Checkout session expired." }
      { db with payments := db.payments.set i p1 }

/-- `handle_payment_failed`: a bulk update of every payment carrying this
transaction id; `errorMsg` is the message extracted from
`last_payment_error`. -/
def handlePaymentFailed (db : PayDb) (piId : String) (errorMsg : String) : PayDb :=
  { db with payments := db.payments.map (fun p =>
      if p.transactionId = piId then
        { p with status := .failed, failureReason := errorMsg }
      else p) }

/-- A verified Stripe webhook event; the fields of `event.data.object` that
the three handlers read are flattened into the record. -/
structure StripeEvent where
  id : String
  type : String
  sessionId : String
  paymentIntent : String
  errorMessage : Option String
  deriving DecidableEq, Repr

/-- `StripeWebhookView._route_event`: dispatch on the event type; unhandled
types are logged and ignored. -/
def routeEvent (db : PayDb) (event : StripeEvent)
    (latestCharge : String → Option String) : PayDb :=
  if event.type = "checkout.session.completed" then
    handleCheckoutCompleted db event.sessionId event.paymentIntent latestCharge
  else if event.type = "checkout.session.expired" then
    handleCheckoutExpired db event.sessionId
  else if event.type = "payment_intent.payment_failed" then
    handlePaymentFailed db event.paymentIntent
      (match event.errorMessage with
       | some m => m
       | none => "Unknown error")
  else db

/-- `StripeWebhookEvent` log rows. -/
structure WebhookEventLog where
  stripeEventId : String
  eventType : String
  processed : Bool
  errorMessage : String
  deriving DecidableEq, Repr

/-- Webhook-facing state: the payment slice of the database plus the event
log. -/
structure PayState where
  db : PayDb
  events : List WebhookEventLog
  deriving DecidableEq, Repr

/-- The two webhook HTTP outcomes the view produces. -/
inductive WebhookResponse
  | badRequest (detail : String)
  | ok (detail : String)
  deriving DecidableEq, Repr

/-- `StripeWebhookView.post`: reject a missing signature header or a failed
signature verification (`verifiedEvent = none`); acknowledge an already
logged event id as a pure no-op; otherwise log the event, route it to its
handler and mark the log row processed.  The handlers are total functions
in this embedding, so the source's per-event exception-recording branch
cannot fire. -/
def stripeWebhookPost (st : PayState) (sigHeader : String)
    (verifiedEvent : Option StripeEvent)
    (latestCharge : String → Option String) : PayState × WebhookResponse :=
  if sigHeader = "" then
    (st, .badRequest "Missing Stripe-Signature header.")
  else
    match verifiedEvent with
    | none => (st, .badRequest "Invalid signature.")
    | some event =>
      if st.events.any (fun ev => decide (ev.stripeEventId = event.id)) then
        (st, .ok "Event already processed.")
      else
        let st1 : PayState :=
          { st with events := st.events ++ [{
              stripeEventId := event.id
              eventType := event.type
              processed := false
              errorMessage := "" }] }
        let db2 := routeEvent st1.db event latestCharge
        let events2 := st1.events.map (fun ev =>
          if ev.stripeEventId = event.id then { ev with processed := true } else ev)
        ({ db := db2, events := events2 }, .ok "")

/-- `StripeService.process_refund`, acting on the payment at index `i`.  The
gateway call `stripe.Refund.create` is abstracted by `gatewayOk`; a failed
call raises, and per the `Except`/atomic convention no local state changes.
A full refund (`amount = none`) sets the payment to refunded, a partial one
to partially refunded; the owning rental's payment status becomes
refunded. -/
def processRefund (db : PayDb) (i : ℕ) (amount : Option Money)
    (gatewayOk : Bool) : Except String PayDb :=
  match db.payments[i]? with
  | none => .error "Payment not found."
  | some p =>
    if p.isRefundable then
      if gatewayOk then
        let p1 : Payment :=
          { p with status :=
              match amount with
              | none => PayStatus.refunded
              | some _ => PayStatus.partiallyRefunded }
        let rentals1 :=
          match db.rentals[p.rentalIdx]? with
          | some r =>
              db.rentals.set p.rentalIdx { r with paymentStatus := .refunded }
          | none => db.rentals
        .ok { payments := db.payments.set i p1, rentals := rentals1 }
      else .error "Stripe refund call failed."
    else .error "Payment is not eligible for refund."

/-! ## Rental lifecycle manager over the inventory store (`rental_service.py`) -/

/-- The inventory-and-rentals slice of the database. -/
structure Store where
  consoles : List Console
  games : List Game
  accessories : List Accessory
  rentals : List Rental
  deriving DecidableEq, Repr

/-- Primary-key lookup, standing for the instance resolution the thin API
layer performs before calling the service. -/
def findConsole (store : Store) (cid : ℕ) : Option Console :=
  store.consoles.find? (fun c => decide (c.id = cid))

/-- Primary-key lookup of a game row. -/
def findGame (store : Store) (gid : ℕ) : Option Game :=
  store.games.find? (fun g => decide (g.id = gid))

/-- Primary-key lookup of an accessory row. -/
def findAccessory (store : Store) (aid : ℕ) : Option Accessory :=
  store.accessories.find? (fun a => decide (a.id = aid))

/-- Resolve an optional console id to the instance handed to the service. -/
def resolveConsole (store : Store) : Option ℕ → Option (Option Console)
  | none => some none
  | some cid => (findConsole store cid).map some

/-- Resolve the list of game ids handed to the service. -/
def resolveGames (store : Store) : List ℕ → Option (List Game)
  | [] => some []
  | gid :: rest =>
    match findGame store gid, resolveGames store rest with
    | some g, some gs => some (g :: gs)
    | _, _ => none

/-- Resolve the list of accessory ids handed to the service. -/
def resolveAccessories (store : Store) : List ℕ → Option (List Accessory)
  | [] => some []
  | aid :: rest =>
    match findAccessory store aid, resolveAccessories store rest with
    | some a, some rest' => some (a :: rest')
    | _, _ => none

/-- The relative `available_quantity = F(available_quantity) + delta` update
on every console row carrying this primary key. -/
def updateConsoleQty (consoles : List Console) (cid : ℕ) (delta : ℤ) : List Console :=
  consoles.map (fun c =>
    if c.id = cid then { c with availableQuantity := c.availableQuantity + delta }
    else c)

/-- Relative quantity update on game rows. -/
def updateGameQty (games : List Game) (gid : ℕ) (delta : ℤ) : List Game :=
  games.map (fun g =>
    if g.id = gid then { g with availableQuantity := g.availableQuantity + delta }
    else g)

/-- Relative quantity update on accessory rows. -/
def updateAccessoryQty (accessories : List Accessory) (aid : ℕ) (delta : ℤ) :
    List Accessory :=
  accessories.map (fun a =>
    if a.id = aid then { a with availableQuantity := a.availableQuantity + delta }
    else a)

/-- Shared body of `_decrement_stock` / `_restore_stock`: one relative update
per item the rental holds. -/
def adjustRentalStock (store : Store) (r : Rental) (delta : ℤ) : Store :=
  { store with
    consoles :=
      match r.consoleId with
      | some cid => updateConsoleQty store.consoles cid delta
      | none => store.consoles
    games := r.gameIds.foldl (fun gs gid => updateGameQty gs gid delta) store.games
    accessories :=
      r.accessoryIds.foldl (fun items aid => updateAccessoryQty items aid delta)
        store.accessories }

/-- `_decrement_stock`. -/
def decrementStock (store : Store) (r : Rental) : Store :=
  adjustRentalStock store r (-1)

/-- `_restore_stock`. -/
def restoreStock (store : Store) (r : Rental) : Store :=
  adjustRentalStock store r 1

/-- The console guard of `create_rental`. -/
def consoleStockError (console : Option Console) : Option String :=
  match console with
  | some c =>
    if c.availableQuantity < 1 then some ("Console out of stock: " ++ c.name)
    else none
  | none => none

/-- The first out-of-stock game the `create_rental` guard loop hits. -/
def firstOutOfStockGame (games : List Game) : Option Game :=
  games.find? (fun g => decide (g.availableQuantity < 1))

/-- The first out-of-stock accessory the `create_rental` guard loop hits. -/
def firstOutOfStockAccessory (accessories : List Accessory) : Option Accessory :=
  accessories.find? (fun a => decide (a.availableQuantity < 1))

/-- The `Rental` row `create_rental` persists: pending status, unpaid,
snapshot pricing, and the m2m sets stored deduplicated as Django's m2m
`set` does.  The fresh primary key is embedded as the next table index. -/
def newRentalRow (store : Store) (consoleId : Option ℕ)
    (gameIds accessoryIds : List ℕ) (rentalType : RentalType) (s e : Day)
    (pricing : PriceBreakdown) : Rental :=
  { id := store.rentals.length
    consoleId := consoleId
    gameIds := gameIds.dedup
    accessoryIds := accessoryIds.dedup
    rentalType := rentalType
    status := .pending
    rentalStartDate := s
    rentalEndDate := e
    actualReturnDate := none
    dailyRate := pricing.dailyRate
    totalPrice := pricing.totalPrice
    depositAmount := pricing.depositAmount
    lateFee := 0
    paymentStatus := .unpaid }

/-- `create_rental`: guard that something is rented and that every selected
item currently has stock, price the cart, persist the pending rental row and
decrement stock for every held item — all one atomic unit (an error result
leaves the store untouched by construction). -/
def createRental (store : Store) (consoleId : Option ℕ)
    (gameIds accessoryIds : List ℕ) (rentalType : RentalType)
    (s e : Day) : Except String Store :=
  match resolveConsole store consoleId, resolveGames store gameIds,
      resolveAccessories store accessoryIds with
  | some console, some games, some accessories =>
    if console = none ∧ games = [] ∧ accessories = [] then
      .error "At least a console, game, or accessory is required."
    else
      match consoleStockError console with
      | some msg => .error msg
      | none =>
        match firstOutOfStockGame games with
        | some g => .error ("Game out of stock: " ++ g.title)
        | none =>
          match firstOutOfStockAccessory accessories with
          | some a => .error ("Accessory out of stock: " ++ a.name)
          | none =>
            match calculateRentalPrice console games accessories rentalType s e with
            | .error msg => .error msg
            | .ok pricing =>
              let r := newRentalRow store consoleId gameIds accessoryIds
                rentalType s e pricing
              .ok (decrementStock { store with rentals := store.rentals ++ [r] } r)
  | _, _, _ => .error "Item not found."

/-- `Rental.is_overdue`: active or late, with the end date strictly past. -/
def Rental.isOverdue (r : Rental) (today : Day) : Bool :=
  (decide (r.status = .active) || decide (r.status = .late))
    && decide (r.rentalEndDate < today)

/-- `mark_rental_late` on a single rental row: a pure no-op unless the
rental is active and overdue, in which case the status becomes late and the
current late fee is snapshotted.  It never fails. -/
def markRentalLateR (r : Rental) (today : Day) : Rental :=
  if r.status ≠ .active then r
  else if r.isOverdue today then
    { r with status := .late, lateFee := calculateLateFee r today }
  else r

/-- `return_rental` on the rental at table index `i`: only active, late or
overdue rentals may return; stamps the return date, snapshots the late fee,
sets the status to returned and restores stock in the same atomic unit. -/
def returnRental (store : Store) (i : ℕ) (returnDate : Day) : Except String Store :=
  match store.rentals[i]? with
  | none => .error "Rental not found."
  | some r =>
    if r.status = .active ∨ r.status = .late ∨ r.status = .overdue then
      let fee := calculateLateFee r returnDate
      let r1 : Rental :=
        { r with
          actualReturnDate := some returnDate
          lateFee := fee
          status := .returned }
      .ok (restoreStock { store with rentals := store.rentals.set i r1 } r1)
    else .error "Cannot return a rental in this status."

/-- `cancel_rental`: only pending or confirmed rentals may cancel; restores
stock identically to return. -/
def cancelRental (store : Store) (i : ℕ) : Except String Store :=
  match store.rentals[i]? with
  | none => .error "Rental not found."
  | some r =>
    if r.status = .pending ∨ r.status = .confirmed then
      let r1 : Rental := { r with status := .cancelled }
      .ok (restoreStock { store with rentals := store.rentals.set i r1 } r1)
    else .error "Cannot cancel a rental in this status."

/-- `mark_rental_active`: only confirmed rentals may activate; no stock
effect. -/
def markRentalActive (store : Store) (i : ℕ) : Except String Store :=
  match store.rentals[i]? with
  | none => .error "Rental not found."
  | some r =>
    if r.status = .confirmed then
      .ok { store with rentals := store.rentals.set i ({ r with status := .active }) }
    else .error "Cannot activate a rental in this status."

/-- `mark_rental_late` applied at a table index by the periodic sweep. -/
def markRentalLate (store : Store) (i : ℕ) (today : Day) : Store :=
  match store.rentals[i]? with
  | none => store
  | some r =>
    { store with rentals := store.rentals.set i (markRentalLateR r today) }

/-- The pending-to-confirmed transition `handle_checkout_completed` applies
to the rental once its payment completes (no stock effect); modelled here so
lifecycle sequences can reach the active state. -/
def confirmRental (store : Store) (i : ℕ) : Store :=
  match store.rentals[i]? with
  | none => store
  | some r =>
    if r.status = .pending then
      let r1 : Rental := { r with status := .confirmed, paymentStatus := .paid }
      { store with rentals := store.rentals.set i r1 }
    else store

/-- One lifecycle operation against the store. -/
inductive Op
  | create (consoleId : Option ℕ) (gameIds accessoryIds : List ℕ)
      (rentalType : RentalType) (s e : Day)
  | confirm (i : ℕ)
  | activate (i : ℕ)
  | markLate (i : ℕ) (today : Day)
  | ret (i : ℕ) (returnDate : Day)
  | cancel (i : ℕ)
  deriving DecidableEq, Repr

/-- Execute one operation; a raised error rolls the transaction back, so the
store is returned unchanged. -/
def step (store : Store) : Op → Store
  | .create consoleId gameIds accessoryIds rentalType s e =>
    match createRental store consoleId gameIds accessoryIds rentalType s e with
    | .ok store' => store'
    | .error _ => store
  | .confirm i => confirmRental store i
  | .activate i =>
    match markRentalActive store i with
    | .ok store' => store'
    | .error _ => store
  | .markLate i today => markRentalLate store i today
  | .ret i returnDate =>
    match returnRental store i returnDate with
    | .ok store' => store'
    | .error _ => store
  | .cancel i =>
    match cancelRental store i with
    | .ok store' => store'
    | .error _ => store

/-- Execute a sequence of lifecycle operations. -/
def run (store : Store) (ops : List Op) : Store :=
  ops.foldl step store

/-- A reference to one inventory item. -/
inductive ItemRef
  | console (cid : ℕ)
  | game (gid : ℕ)
  | accessory (aid : ℕ)
  deriving DecidableEq, Repr

/-- Whether a rental references the item. -/
def Rental.holds (r : Rental) (ref : ItemRef) : Bool :=
  match ref with
  | .console cid => decide (r.consoleId = some cid)
  | .game gid => decide (gid ∈ r.gameIds)
  | .accessory aid => decide (aid ∈ r.accessoryIds)

/-- Whether a status holds inventory. -/
def isBlockingStatus (st : RentalStatus) : Bool :=
  decide (st ∈ BLOCKING_STATUSES)

/-- How many rentals currently hold the item: blocking status and the item
among the rental's references. -/
def countHolding (rentals : List Rental) (ref : ItemRef) : ℤ :=
  match rentals with
  | [] => 0
  | r :: rest =>
    (if isBlockingStatus r.status && r.holds ref then 1 else 0)
      + countHolding rest ref

/-- The inductive invariant tying `available_quantity` to the rentals that
hold each item. -/
structure StoreInv (store : Store) : Prop where
  consoleIdsNodup : (store.consoles.map Console.id).Nodup
  gameIdsNodup : (store.games.map Game.id).Nodup
  accessoryIdsNodup : (store.accessories.map Accessory.id).Nodup
  rentalGamesNodup : ∀ r ∈ store.rentals, r.gameIds.Nodup
  rentalAccessoriesNodup : ∀ r ∈ store.rentals, r.accessoryIds.Nodup
  consoleBalance : ∀ c ∈ store.consoles,
    c.availableQuantity
      = (c.stockQuantity : ℤ) - countHolding store.rentals (.console c.id)
  gameBalance : ∀ g ∈ store.games,
    g.availableQuantity
      = (g.stockQuantity : ℤ) - countHolding store.rentals (.game g.id)
  accessoryBalance : ∀ a ∈ store.accessories,
    a.availableQuantity
      = (a.stockQuantity : ℤ) - countHolding store.rentals (.accessory a.id)
  consoleNonneg : ∀ c ∈ store.consoles, 0 ≤ c.availableQuantity
  gameNonneg : ∀ g ∈ store.games, 0 ≤ g.availableQuantity
  accessoryNonneg : ∀ a ∈ store.accessories, 0 ≤ a.availableQuantity

/-! ## Sample rows used by concrete witnesses -/

def sampleConsole : Console :=
  { id := 1, name := "PS5", dailyPrice := 100, weeklyPrice := 600,
    monthlyPrice := 2000, securityDeposit := 500, stockQuantity := 3,
    availableQuantity := 3 }

def sampleGame : Game :=
  { id := 2, title := "GT7", dailyPrice := 50, weeklyPrice := 0,
    stockQuantity := 2, availableQuantity := 2 }

def sampleAccessory : Accessory :=
  { id := 3, name := "DualSense", pricePerDay := 20, stockQuantity := 4,
    availableQuantity := 4 }

def lateRental : Rental :=
  { id := 0, consoleId := some 1, gameIds := [2, 4], accessoryIds := [],
    rentalType := .daily, status := .active, rentalStartDate := 0,
    rentalEndDate := 10, actualReturnDate := none, dailyRate := 100,
    totalPrice := 1000, depositAmount := 500, lateFee := 0,
    paymentStatus := .paid }

def sampleStore : Store :=
  { consoles := [sampleConsole], games := [sampleGame],
    accessories := [sampleAccessory], rentals := [] }

def sampleOps : List Op :=
  [.create (some 1) [2] [3] .daily 0 5, .confirm 0, .activate 0, .ret 0 5]

def pendingRental : Rental :=
  { lateRental with status := .pending }

def guardStore : Store :=
  { consoles := [], games := [], accessories := [], rentals := [pendingRental] }

def emptyStockConsole : Console :=
  { sampleConsole with id := 5, availableQuantity := 0 }

def outOfStockStore : Store :=
  { consoles := [emptyStockConsole], games := [], accessories := [],
    rentals := [] }

def refundablePayment : Payment :=
  { id := 7, rentalIdx := 0, paymentType := .rental, status := .completed,
    amount := 1000, stripeCheckoutSessionId := "cs_1",
    transactionId := "pi_1", stripeChargeId := "", failureReason := "" }

def samplePayDb : PayDb :=
  { payments := [refundablePayment], rentals := [lateRental] }

def samplePayState : PayState :=
  { db := samplePayDb, events := [] }

def sampleEvent : StripeEvent :=
  { id := "evt_1", type := "checkout.session.completed", sessionId := "cs_1",
    paymentIntent := "pi_1", errorMessage := none }

/-- Counterexample data for the availability report: one console with a
single unit, but two blocking reservations overlapping the same window. -/
def cxConsole : Console :=
  { id := 9, name := "PS5 Pro", dailyPrice := 100, weeklyPrice := 600,
    monthlyPrice := 2000, securityDeposit := 0, stockQuantity := 1,
    availableQuantity := 1 }

def cxRental1 : Rental :=
  { id := 101, consoleId := some 9, gameIds := [], accessoryIds := [],
    rentalType := .daily, status := .pending, rentalStartDate := 0,
    rentalEndDate := 10, actualReturnDate := none, dailyRate := 100,
    totalPrice := 1000, depositAmount := 0, lateFee := 0,
    paymentStatus := .unpaid }

def cxRental2 : Rental :=
  { id := 102, consoleId := some 9, gameIds := [], accessoryIds := [],
    rentalType := .daily, status := .confirmed, rentalStartDate := 0,
    rentalEndDate := 10, actualReturnDate := none, dailyRate := 100,
    totalPrice := 1000, depositAmount := 0, lateFee := 0,
    paymentStatus := .paid }

/-! ## Helper lemmas -/

theorem foldl_add_eq_sum {α : Type} (f : α → Money) (l : List α) (init : Money) :
    l.foldl (fun acc x => acc + f x) init = init + (l.map f).sum := by
  induction l generalizing init with
  | nil => simp
  | cons x xs ih => simp [ih, add_assoc]

theorem countOverlappingConsoleRentals_eq (db : List Rental) (cid : ℕ)
    (s e : Day) :
    countOverlappingConsoleRentals db cid s e none
      = (db.filter (fun r => decide (r.status ∈ BLOCKING_STATUSES
          ∧ r.rentalStartDate < e ∧ r.rentalEndDate > s
          ∧ r.consoleId = some cid))).length := by
  unfold countOverlappingConsoleRentals
  induction db with
  | nil => rfl
  | cons r rest ih =>
    by_cases h1 : r.consoleId = some cid <;>
    by_cases h2 : r.status ∈ BLOCKING_STATUSES <;>
    by_cases h3 : r.rentalStartDate < e <;>
    by_cases h4 : r.rentalEndDate > s <;>
      simp [List.filter_cons, blockingOverlapQ, notExcluded, h1, h2, h3, h4, ih, Bool.and_assoc]

theorem countOverlappingGameRentals_eq (db : List Rental) (gid : ℕ)
    (s e : Day) :
    countOverlappingGameRentals db gid s e none
      = (db.filter (fun r => decide (r.status ∈ BLOCKING_STATUSES
          ∧ r.rentalStartDate < e ∧ r.rentalEndDate > s
          ∧ gid ∈ r.gameIds))).length := by
  unfold countOverlappingGameRentals
  induction db with
  | nil => rfl
  | cons r rest ih =>
    by_cases h1 : gid ∈ r.gameIds <;>
    by_cases h2 : r.status ∈ BLOCKING_STATUSES <;>
    by_cases h3 : r.rentalStartDate < e <;>
    by_cases h4 : r.rentalEndDate > s <;>
      simp [List.filter_cons, blockingOverlapQ, notExcluded, h1, h2, h3, h4, ih, Bool.and_assoc]

theorem countOverlappingAccessoryRentals_eq (db : List Rental) (aid : ℕ)
    (s e : Day) :
    countOverlappingAccessoryRentals db aid s e none
      = (db.filter (fun r => decide (r.status ∈ BLOCKING_STATUSES
          ∧ r.rentalStartDate < e ∧ r.rentalEndDate > s
          ∧ aid ∈ r.accessoryIds))).length := by
  unfold countOverlappingAccessoryRentals
  induction db with
  | nil => rfl
  | cons r rest ih =>
    by_cases h1 : aid ∈ r.accessoryIds <;>
    by_cases h2 : r.status ∈ BLOCKING_STATUSES <;>
    by_cases h3 : r.rentalStartDate < e <;>
    by_cases h4 : r.rentalEndDate > s <;>
      simp [List.filter_cons, blockingOverlapQ, notExcluded, h1, h2, h3, h4, ih, Bool.and_assoc]

/-! ## C1: the single-item availability check -/

/-- C1 (amended): for every item and window with `end > start`, the check
counts exactly the reservations whose status is blocking and which satisfy
the half-open overlap test `rs < end ∧ re > start`; it reports
`available_for_window = max(total_stock - overlap_count, 0)` — clamped at
zero, which is where the original claim fails — with
`is_available = (total_stock - overlap_count > 0)`, and it fails with a
validation error whenever `end ≤ start`.  A reservation ending exactly on
the requested start never blocks; an identically-windowed blocking
reservation always blocks. -/
theorem C1_availability_check (db : List Rental) (c : Console) (g : Game)
    (a : Accessory) (s e : Day) :
    (e ≤ s →
        checkConsoleAvailability db c s e none
          = .error "end date must be after start date"
      ∧ checkGameAvailability db g s e none
          = .error "end date must be after start date"
      ∧ checkAccessoryAvailability db a s e none
          = .error "end date must be after start date")
  ∧ (s < e → ∃ res : AvailabilityResult,
        checkConsoleAvailability db c s e none = .ok res
      ∧ res.overlappingRentals = (db.filter (fun r =>
            decide (r.status ∈ BLOCKING_STATUSES ∧ r.rentalStartDate < e
              ∧ r.rentalEndDate > s ∧ r.consoleId = some c.id))).length
      ∧ res.availableForDates
          = max ((c.stockQuantity : ℤ) - (res.overlappingRentals : ℤ)) 0
      ∧ res.isAvailable
          = decide ((c.stockQuantity : ℤ) - (res.overlappingRentals : ℤ) > 0))
  ∧ (s < e → ∃ res : AvailabilityResult,
        checkGameAvailability db g s e none = .ok res
      ∧ res.overlappingRentals = (db.filter (fun r =>
            decide (r.status ∈ BLOCKING_STATUSES ∧ r.rentalStartDate < e
              ∧ r.rentalEndDate > s ∧ g.id ∈ r.gameIds))).length
      ∧ res.availableForDates
          = max ((g.stockQuantity : ℤ) - (res.overlappingRentals : ℤ)) 0
      ∧ res.isAvailable
          = decide ((g.stockQuantity : ℤ) - (res.overlappingRentals : ℤ) > 0))
  ∧ (s < e → ∃ res : AvailabilityResult,
        checkAccessoryAvailability db a s e none = .ok res
      ∧ res.overlappingRentals = (db.filter (fun r =>
            decide (r.status ∈ BLOCKING_STATUSES ∧ r.rentalStartDate < e
              ∧ r.rentalEndDate > s ∧ a.id ∈ r.accessoryIds))).length
      ∧ res.availableForDates
          = max ((a.stockQuantity : ℤ) - (res.overlappingRentals : ℤ)) 0
      ∧ res.isAvailable
          = decide ((a.stockQuantity : ℤ) - (res.overlappingRentals : ℤ) > 0))
  ∧ (∀ r : Rental, r.rentalEndDate = s → blockingOverlapQ s e r = false)
  ∧ (∀ r : Rental, r.status ∈ BLOCKING_STATUSES → r.rentalStartDate = s →
      r.rentalEndDate = e → s < e → blockingOverlapQ s e r = true) := by
  refine ⟨?_, ?_, ?_, ?_, ?_, ?_⟩
  · intro hle
    refine ⟨?_, ?_, ?_⟩ <;>
      simp [checkConsoleAvailability, checkGameAvailability,
        checkAccessoryAvailability, hle]
  · intro hlt
    have hne : ¬ (e ≤ s) := not_le.mpr hlt
    refine ⟨consoleAvailabilityResult db c s e none, ?_, ?_, rfl, rfl⟩
    · simp [checkConsoleAvailability, hne]
    · exact countOverlappingConsoleRentals_eq db c.id s e
  · intro hlt
    have hne : ¬ (e ≤ s) := not_le.mpr hlt
    refine ⟨gameAvailabilityResult db g s e none, ?_, ?_, rfl, rfl⟩
    · simp [checkGameAvailability, hne]
    · exact countOverlappingGameRentals_eq db g.id s e
  · intro hlt
    have hne : ¬ (e ≤ s) := not_le.mpr hlt
    refine ⟨accessoryAvailabilityResult db a s e none, ?_, ?_, rfl, rfl⟩
    · simp [checkAccessoryAvailability, hne]
    · exact countOverlappingAccessoryRentals_eq db a.id s e
  · intro r hre
    simp [blockingOverlapQ, hre]
  · intro r hst hrs hre hlt
    simp [blockingOverlapQ, hst, hrs, hre, hlt]

/-- Witness for C1 at a concrete database and window. -/
theorem C1_availability_check_witness :
    (∃ res : AvailabilityResult,
        checkConsoleAvailability [cxRental1, cxRental2] sampleConsole 0 10 none
          = .ok res
      ∧ res.overlappingRentals = ([cxRental1, cxRental2].filter (fun r =>
            decide (r.status ∈ BLOCKING_STATUSES ∧ r.rentalStartDate < 10
              ∧ r.rentalEndDate > 0 ∧ r.consoleId = some sampleConsole.id))).length
      ∧ res.availableForDates
          = max ((sampleConsole.stockQuantity : ℤ) - (res.overlappingRentals : ℤ)) 0
      ∧ res.isAvailable
          = decide ((sampleConsole.stockQuantity : ℤ)
              - (res.overlappingRentals : ℤ) > 0))
    ∧ checkConsoleAvailability [cxRental1, cxRental2] sampleConsole 10 10 none
        = .error "end date must be after start date" :=
  ⟨(C1_availability_check [cxRental1, cxRental2] sampleConsole sampleGame
      sampleAccessory 0 10).2.1 (by decide),
   ((C1_availability_check [cxRental1, cxRental2] sampleConsole sampleGame
      sampleAccessory 10 10).1 (by decide)).1⟩

/-- Counterexample to C1 as stated: with one unit of stock and two blocking
overlapping reservations, the reported `available_for_dates` is the clamped
0, not `total_stock - overlap_count = -1`. -/
theorem C1_availability_check_counterexample :
    (checkConsoleAvailability [cxRental1, cxRental2] cxConsole 0 10 none).map
      (fun res => decide (res.availableForDates
        = (cxConsole.stockQuantity : ℤ) - (res.overlappingRentals : ℤ)))
      = .ok false := by
  rfl

/-! ## C9: bulk availability issues at most three aggregate queries -/

/-- C9: for every cart the bulk availability check issues
`(1 if console else 0) + (0 if no games else 1) + (0 if no accessories
else 1)` aggregate queries — a function of presence only, never of the
number N of games or M of accessories — and that total is at most 3. -/
theorem C9_bulk_query_bound (db : List Rental) (console : Option Console)
    (games : List Game) (accessories : List Accessory) (s e : Day)
    (excludeRentalId : Option ℕ) (h : s < e) :
    ∃ res : BulkAvailabilityResult,
      checkBulkAvailability db console games accessories s e excludeRentalId
        = .ok (res, bulkAvailabilityQueryCount console games accessories)
    ∧ bulkAvailabilityQueryCount console games accessories ≤ 3
    ∧ bulkAvailabilityQueryCount console games accessories
        = (match console with
            | some _ => 1
            | none => 0)
          + (if games = [] then 0 else 1)
          + (if accessories = [] then 0 else 1) := by
  have hne : ¬ (e ≤ s) := not_le.mpr h
  refine ⟨{
      console := console.map (fun c => consoleAvailabilityResult db c s e excludeRentalId)
      games := games.map (fun g => gameAvailabilityResult db g s e excludeRentalId)
      accessories :=
        accessories.map (fun a => accessoryAvailabilityResult db a s e excludeRentalId)
    }, ?_, ?_, ?_⟩
  · unfold checkBulkAvailability
    rw [if_neg hne]
  · cases console <;> cases games <;> cases accessories <;>
      simp [bulkAvailabilityQueryCount, consoleOverlapQueryCount,
        gameOverlapQueryCount, accessoryOverlapQueryCount]
  · cases console <;> cases games <;> cases accessories <;>
      simp [bulkAvailabilityQueryCount, consoleOverlapQueryCount,
        gameOverlapQueryCount, accessoryOverlapQueryCount]

/-- Witness for C9: a cart with a console, two games and one accessory
issues exactly three aggregate queries. -/
theorem C9_bulk_query_bound_witness :
    ∃ res : BulkAvailabilityResult,
      checkBulkAvailability [cxRental1, cxRental2] (some sampleConsole)
        [sampleGame, sampleGame] [sampleAccessory] 0 10 none
        = .ok (res, bulkAvailabilityQueryCount (some sampleConsole)
            [sampleGame, sampleGame] [sampleAccessory])
    ∧ bulkAvailabilityQueryCount (some sampleConsole) [sampleGame, sampleGame]
        [sampleAccessory] ≤ 3
    ∧ bulkAvailabilityQueryCount (some sampleConsole) [sampleGame, sampleGame]
        [sampleAccessory]
        = (match some sampleConsole with
            | some _ => 1
            | none => 0)
          + (if ([sampleGame, sampleGame] : List Game) = [] then 0 else 1)
          + (if ([sampleAccessory] : List Accessory) = [] then 0 else 1) :=
  C9_bulk_query_bound [cxRental1, cxRental2] (some sampleConsole)
    [sampleGame, sampleGame] [sampleAccessory] 0 10 none (by decide)

/-! ## C2: the pricing engine -/

/-- C2: for every cart and positive duration the pricing engine bills the
daily plan at `daily_rate × duration_days`, the weekly plan at
`weekly_rate × (duration_days div 7) + daily_rate × (duration_days mod 7)`,
the monthly plan at `monthly_rate × (duration_days div 30) + daily_rate ×
(duration_days mod 30)`; every accessory is billed at
`daily_rate × duration_days` regardless of the selected plan, and the cart
total is the sum of the console, game and accessory prices. -/
theorem C2_pricing_engine (console : Option Console) (games : List Game)
    (accessories : List Accessory) (rentalType : RentalType) (s e : Day)
    (h : s < e) :
    (∀ daily weekly monthly : Money, ∀ d : ℕ,
        priceForItem daily weekly monthly .daily d = daily * (d : Money)
      ∧ priceForItem daily weekly monthly .weekly d
          = weekly * ((d / 7 : ℕ) : Money) + daily * ((d % 7 : ℕ) : Money)
      ∧ priceForItem daily weekly monthly .monthly d
          = monthly * ((d / 30 : ℕ) : Money) + daily * ((d % 30 : ℕ) : Money))
    ∧ ∃ b : PriceBreakdown,
        calculateRentalPrice console games accessories rentalType s e = .ok b
      ∧ b.consolePrice = (match console with
          | some c => priceForItem c.dailyPrice c.weeklyPrice c.monthlyPrice
              rentalType (e - s).toNat
          | none => 0)
      ∧ b.gamesPrice
          = (games.map (fun g => gameItemPrice g rentalType (e - s).toNat)).sum
      ∧ b.accessoriesPrice
          = (accessories.map (fun a => a.pricePerDay * (((e - s).toNat : ℕ) : Money))).sum
      ∧ b.totalPrice = b.consolePrice + b.gamesPrice + b.accessoriesPrice := by
  constructor
  · intro daily weekly monthly d
    exact ⟨rfl, rfl, rfl⟩
  · have hds : ¬ (e - s ≤ 0) := by linarith
    simp only [calculateRentalPrice, if_neg hds]
    refine ⟨_, rfl, rfl, ?_, ?_, rfl⟩
    · simp [foldl_add_eq_sum]
    · simp [foldl_add_eq_sum]

/-- Witness for C2 at a concrete cart. -/
theorem C2_pricing_engine_witness :
    (∀ daily weekly monthly : Money, ∀ d : ℕ,
        priceForItem daily weekly monthly .daily d = daily * (d : Money)
      ∧ priceForItem daily weekly monthly .weekly d
          = weekly * ((d / 7 : ℕ) : Money) + daily * ((d % 7 : ℕ) : Money)
      ∧ priceForItem daily weekly monthly .monthly d
          = monthly * ((d / 30 : ℕ) : Money) + daily * ((d % 30 : ℕ) : Money))
    ∧ ∃ b : PriceBreakdown,
        calculateRentalPrice (some sampleConsole) [sampleGame] [sampleAccessory]
          .weekly 0 10 = .ok b
      ∧ b.consolePrice = (match some sampleConsole with
          | some c => priceForItem c.dailyPrice c.weeklyPrice c.monthlyPrice
              .weekly ((10 : Day) - 0).toNat
          | none => 0)
      ∧ b.gamesPrice
          = ([sampleGame].map (fun g => gameItemPrice g .weekly ((10 : Day) - 0).toNat)).sum
      ∧ b.accessoriesPrice
          = ([sampleAccessory].map
              (fun a => a.pricePerDay * ((((10 : Day) - 0).toNat : ℕ) : Money))).sum
      ∧ b.totalPrice = b.consolePrice + b.gamesPrice + b.accessoriesPrice :=
  C2_pricing_engine (some sampleConsole) [sampleGame] [sampleAccessory]
    .weekly 0 10 (by decide)

/-! ## C5: late fees -/

/-- C5: `calculate_late_fee` returns 0 when `as_of - end_date ≤ 0` and
otherwise `overdue × 150` (when a console is attached) plus
`overdue × 30 × count(games)` plus `overdue × 20 × count(accessories)`;
in particular a rental 3 days overdue holding one console and two games
owes 630. -/
theorem C5_late_fee_formula (r : Rental) (asOf : Day) :
    (asOf - r.rentalEndDate ≤ 0 → calculateLateFee r asOf = 0)
  ∧ (0 < asOf - r.rentalEndDate →
      calculateLateFee r asOf
        = (if r.consoleId.isSome then ((asOf - r.rentalEndDate : ℤ) : Money) * 150 else 0)
          + ((asOf - r.rentalEndDate : ℤ) : Money) * 30 * (r.gameIds.length : Money)
          + ((asOf - r.rentalEndDate : ℤ) : Money) * 20 * (r.accessoryIds.length : Money))
  ∧ (r.consoleId.isSome → r.gameIds.length = 2 → r.accessoryIds.length = 0 →
      calculateLateFee r (r.rentalEndDate + 3) = 630) := by
  refine ⟨?_, ?_, ?_⟩
  · intro hle
    simp [calculateLateFee, hle]
  · intro hgt
    have hne : ¬ (asOf - r.rentalEndDate ≤ 0) := by linarith
    by_cases hc : r.consoleId.isSome <;>
      simp [calculateLateFee, hne, hc, LATE_FEE_PER_DAY_CONSOLE,
        LATE_FEE_PER_DAY_GAME, LATE_FEE_PER_DAY_ACCESSORY] <;> ring
  · intro hc hg ha
    have h3 : r.rentalEndDate + 3 - r.rentalEndDate = 3 := by ring
    simp [calculateLateFee, h3, hc, hg, ha, LATE_FEE_PER_DAY_CONSOLE,
      LATE_FEE_PER_DAY_GAME, LATE_FEE_PER_DAY_ACCESSORY]
    norm_num

/-- Witness for C5: a concrete rental, 3 days overdue with one console and
two games, owes exactly 630. -/
theorem C5_late_fee_formula_witness :
    calculateLateFee lateRental 13
      = (if lateRental.consoleId.isSome
          then ((13 - lateRental.rentalEndDate : ℤ) : Money) * 150 else 0)
        + ((13 - lateRental.rentalEndDate : ℤ) : Money) * 30
            * (lateRental.gameIds.length : Money)
        + ((13 - lateRental.rentalEndDate : ℤ) : Money) * 20
            * (lateRental.accessoryIds.length : Money)
    ∧ calculateLateFee lateRental (lateRental.rentalEndDate + 3) = 630 :=
  ⟨(C5_late_fee_formula lateRental 13).2.1 (by decide),
   (C5_late_fee_formula lateRental 13).2.2 (by decide) (by decide) (by decide)⟩

/-! ## C10: the monthly plan is price-neutral for games -/

/-- C10: under the monthly plan a game is always billed exactly
`daily_price × duration_days` (the synthetic `daily × 30` monthly rate
recombines with the remainder days), i.e. the same as under the daily
plan; and the weekly plan degenerates the same way whenever the game's
`weekly_price` is 0. -/
theorem C10_game_monthly_neutral (g : Game) (d : ℕ) (_hd : 0 < d) :
    gameItemPrice g .monthly d = g.dailyPrice * (d : Money)
  ∧ gameItemPrice g .monthly d = gameItemPrice g .daily d
  ∧ (g.weeklyPrice = 0 → gameItemPrice g .weekly d = g.dailyPrice * (d : Money)) := by
  have c30 : (30 : Money) * ((d / 30 : ℕ) : Money) + ((d % 30 : ℕ) : Money)
      = (d : Money) := by
    exact_mod_cast congrArg (fun n : ℕ => (n : Money)) (Nat.div_add_mod d 30)
  have c7 : (7 : Money) * ((d / 7 : ℕ) : Money) + ((d % 7 : ℕ) : Money)
      = (d : Money) := by
    exact_mod_cast congrArg (fun n : ℕ => (n : Money)) (Nat.div_add_mod d 7)
  refine ⟨?_, ?_, ?_⟩
  · show (g.dailyPrice * 30) * ((d / 30 : ℕ) : Money)
        + g.dailyPrice * ((d % 30 : ℕ) : Money) = g.dailyPrice * (d : Money)
    linear_combination g.dailyPrice * c30
  · show (g.dailyPrice * 30) * ((d / 30 : ℕ) : Money)
        + g.dailyPrice * ((d % 30 : ℕ) : Money) = g.dailyPrice * (d : Money)
    linear_combination g.dailyPrice * c30
  · intro hw
    simp only [gameItemPrice, priceForItem, if_pos hw]
    linear_combination g.dailyPrice * c7

/-- Witness for C10 at a concrete game (weekly price 0) and 40 days. -/
theorem C10_game_monthly_neutral_witness :
    0 < 40
  ∧ gameItemPrice sampleGame .monthly 40 = sampleGame.dailyPrice * ((40 : ℕ) : Money)
  ∧ gameItemPrice sampleGame .monthly 40 = gameItemPrice sampleGame .daily 40
  ∧ gameItemPrice sampleGame .weekly 40 = sampleGame.dailyPrice * ((40 : ℕ) : Money) :=
  ⟨by decide,
   (C10_game_monthly_neutral sampleGame 40 (by decide)).1,
   (C10_game_monthly_neutral sampleGame 40 (by decide)).2.1,
   (C10_game_monthly_neutral sampleGame 40 (by decide)).2.2 rfl⟩

/-! ## C6: webhook idempotency -/

/-- C6: an inbound webhook event whose external id is already logged is
acknowledged with success and performs no side effects at all (the state —
payments, rentals and the event log — is returned unchanged); consequently
delivering any event twice leaves the state produced by the first delivery
untouched, and the second delivery still returns success. -/
theorem C6_webhook_idempotency (st : PayState) (sigHeader : String)
    (event : StripeEvent) (latestCharge : String → Option String)
    (hsig : sigHeader ≠ "") :
    ((∃ ev ∈ st.events, ev.stripeEventId = event.id) →
      stripeWebhookPost st sigHeader (some event) latestCharge
        = (st, .ok "Event already processed."))
  ∧ stripeWebhookPost
      (stripeWebhookPost st sigHeader (some event) latestCharge).1
      sigHeader (some event) latestCharge
      = ((stripeWebhookPost st sigHeader (some event) latestCharge).1,
         .ok "Event already processed.") := by
  constructor
  · rintro ⟨ev, hmem, hid⟩
    have hany : st.events.any (fun ev => decide (ev.stripeEventId = event.id)) = true := by
      rw [List.any_eq_true]
      exact ⟨ev, hmem, by simp [hid]⟩
    simp [stripeWebhookPost, hsig, hany]
  · by_cases hany : st.events.any (fun ev => decide (ev.stripeEventId = event.id)) = true
    · simp [stripeWebhookPost, hsig, hany]
    · have h1 : stripeWebhookPost st sigHeader (some event) latestCharge
          = ({ db := routeEvent st.db event latestCharge,
               events := (st.events ++
                   [(⟨event.id, event.type, false, ""⟩ : WebhookEventLog)]).map
                 (fun ev => if ev.stripeEventId = event.id
                   then { ev with processed := true } else ev) }, .ok "") := by
        simp [stripeWebhookPost, hsig, hany]
      rw [h1]
      have hany2 : ((st.events ++
            [(⟨event.id, event.type, false, ""⟩ : WebhookEventLog)]).map
          (fun ev => if ev.stripeEventId = event.id
            then { ev with processed := true } else ev)).any
          (fun ev => decide (ev.stripeEventId = event.id)) = true := by
        rw [List.any_eq_true]
        refine ⟨(⟨event.id, event.type, true, ""⟩ : WebhookEventLog), ?_, by simp⟩
        rw [List.mem_map]
        exact ⟨⟨event.id, event.type, false, ""⟩, by simp, by simp⟩
      simp [stripeWebhookPost, hsig, hany2]

/-- Witness for C6: replaying a concrete checkout-completed event against a
concrete store is a pure no-op returning success. -/
theorem C6_webhook_idempotency_witness :
    ((∃ ev ∈ samplePayState.events, ev.stripeEventId = sampleEvent.id) →
      stripeWebhookPost samplePayState "sig" (some sampleEvent) (fun _ => none)
        = (samplePayState, .ok "Event already processed."))
  ∧ stripeWebhookPost
      (stripeWebhookPost samplePayState "sig" (some sampleEvent) (fun _ => none)).1
      "sig" (some sampleEvent) (fun _ => none)
      = ((stripeWebhookPost samplePayState "sig" (some sampleEvent) (fun _ => none)).1,
         .ok "Event already processed.") :=
  C6_webhook_idempotency samplePayState "sig" sampleEvent (fun _ => none)
    (by decide)

/-! ## C7: refund eligibility and effects -/

/-- C7: `process_refund` succeeds only when the payment is completed or
partially refunded with a non-empty transaction id, raising a state error
otherwise; a failed gateway call raises with no local state change; on
success a full refund marks the payment refunded, a partial refund marks it
partially refunded, and the owning rental's payment status becomes
refunded. -/
theorem C7_process_refund (db : PayDb) (i : ℕ) (p : Payment)
    (amount : Option Money) (gatewayOk : Bool)
    (hp : db.payments[i]? = some p) :
    (p.isRefundable = true ↔
      (p.status = .completed ∨ p.status = .partiallyRefunded)
        ∧ p.transactionId ≠ "")
  ∧ (p.isRefundable = false →
      processRefund db i amount gatewayOk
        = .error "Payment is not eligible for refund.")
  ∧ (p.isRefundable = true → gatewayOk = false →
      processRefund db i amount gatewayOk = .error "Stripe refund call failed.")
  ∧ (p.isRefundable = true → gatewayOk = true →
      processRefund db i amount gatewayOk
        = .ok { payments := db.payments.set i
                  { p with status :=
                      match amount with
                      | none => PayStatus.refunded
                      | some _ => PayStatus.partiallyRefunded }
                rentals :=
                  match db.rentals[p.rentalIdx]? with
                  | some r =>
                      db.rentals.set p.rentalIdx { r with paymentStatus := .refunded }
                  | none => db.rentals }) := by
  refine ⟨?_, ?_, ?_, ?_⟩
  · simp [Payment.isRefundable]
  · intro h
    simp [processRefund, hp, h]
  · intro h1 h2
    subst h2
    simp [processRefund, hp, h1]
  · intro h1 h2
    subst h2
    simp [processRefund, hp, h1]

/-- Witness for C7: a concrete refundable payment, full refund, gateway
success. -/
theorem C7_process_refund_witness :
    (refundablePayment.isRefundable = true ↔
      (refundablePayment.status = .completed
          ∨ refundablePayment.status = .partiallyRefunded)
        ∧ refundablePayment.transactionId ≠ "")
  ∧ processRefund samplePayDb 0 none true
      = .ok { payments := samplePayDb.payments.set 0
                { refundablePayment with status :=
                    match (none : Option Money) with
                    | none => PayStatus.refunded
                    | some _ => PayStatus.partiallyRefunded }
              rentals :=
                match samplePayDb.rentals[refundablePayment.rentalIdx]? with
                | some r =>
                    samplePayDb.rentals.set refundablePayment.rentalIdx
                      { r with paymentStatus := .refunded }
                | none => samplePayDb.rentals } :=
  ⟨(C7_process_refund samplePayDb 0 refundablePayment none true rfl).1,
   (C7_process_refund samplePayDb 0 refundablePayment none true rfl).2.2.2
     (by decide) rfl⟩

/-! ## Stock-accounting lemmas -/

theorem countHolding_nonneg (rentals : List Rental) (ref : ItemRef) :
    0 ≤ countHolding rentals ref := by
  induction rentals with
  | nil => simp [countHolding]
  | cons r rest ih =>
    simp only [countHolding]
    split <;> omega

theorem countHolding_append (rentals : List Rental) (r : Rental) (ref : ItemRef) :
    countHolding (rentals ++ [r]) ref
      = countHolding rentals ref
        + (if isBlockingStatus r.status && r.holds ref then 1 else 0) := by
  induction rentals with
  | nil => simp [countHolding]
  | cons x rest ih =>
    simp only [List.cons_append, countHolding, List.append_eq]
    rw [ih]
    ring

theorem countHolding_set (rentals : List Rental) (i : ℕ) (r r' : Rental)
    (ref : ItemRef) (h : rentals[i]? = some r) :
    countHolding (rentals.set i r') ref
      = countHolding rentals ref
        - (if isBlockingStatus r.status && r.holds ref then 1 else 0)
        + (if isBlockingStatus r'.status && r'.holds ref then 1 else 0) := by
  induction rentals generalizing i with
  | nil => simp at h
  | cons x rest ih =>
    cases i with
    | zero =>
      simp only [List.getElem?_cons_zero, Option.some.injEq] at h
      subst h
      simp only [List.set_cons_zero, countHolding]
      ring
    | succ n =>
      simp only [List.getElem?_cons_succ] at h
      simp only [List.set_cons_succ, countHolding, ih n h]
      ring

theorem countHolding_zero_of_terminal (rentals : List Rental) (ref : ItemRef)
    (h : ∀ r ∈ rentals, r.status = .returned ∨ r.status = .cancelled) :
    countHolding rentals ref = 0 := by
  induction rentals with
  | nil => rfl
  | cons r rest ih =>
    have hr := h r (List.mem_cons_self r rest)
    have hb : isBlockingStatus r.status = false := by
      rcases hr with h1 | h1 <;> rw [h1] <;> decide
    simp [countHolding, hb, ih (fun x hx => h x (List.mem_cons_of_mem _ hx))]

theorem foldl_updateGameQty_map_id :
    ∀ (gids : List ℕ) (games : List Game) (delta : ℤ),
      ((gids.foldl (fun gs gid => updateGameQty gs gid delta) games).map Game.id)
        = games.map Game.id := by
  intro gids
  induction gids with
  | nil => intro games delta; rfl
  | cons gid rest ih =>
    intro games delta
    rw [List.foldl_cons, ih]
    unfold updateGameQty
    rw [List.map_map]
    refine List.map_congr_left ?_
    intro g _
    by_cases h : g.id = gid <;> simp [h]

theorem foldl_updateAccessoryQty_map_id :
    ∀ (aids : List ℕ) (accessories : List Accessory) (delta : ℤ),
      ((aids.foldl (fun xs aid => updateAccessoryQty xs aid delta)
          accessories).map Accessory.id)
        = accessories.map Accessory.id := by
  intro aids
  induction aids with
  | nil => intro accessories delta; rfl
  | cons aid rest ih =>
    intro accessories delta
    rw [List.foldl_cons, ih]
    unfold updateAccessoryQty
    rw [List.map_map]
    refine List.map_congr_left ?_
    intro a _
    by_cases h : a.id = aid <;> simp [h]

theorem foldl_updateGameQty_eq :
    ∀ (gids : List ℕ) (games : List Game) (delta : ℤ), gids.Nodup →
      gids.foldl (fun gs gid => updateGameQty gs gid delta) games
        = games.map (fun g =>
            if g.id ∈ gids then
              { g with availableQuantity := g.availableQuantity + delta }
            else g) := by
  intro gids
  induction gids with
  | nil =>
    intro games delta _
    simp
  | cons gid rest ih =>
    intro games delta h
    rcases List.nodup_cons.mp h with ⟨hni, hrest⟩
    rw [List.foldl_cons, ih (updateGameQty games gid delta) delta hrest]
    unfold updateGameQty
    rw [List.map_map]
    refine List.map_congr_left ?_
    intro g _
    by_cases h1 : g.id = gid
    · simp [Function.comp, h1, hni, List.mem_cons]
    · simp [Function.comp, h1, List.mem_cons]

theorem foldl_updateAccessoryQty_eq :
    ∀ (aids : List ℕ) (accessories : List Accessory) (delta : ℤ), aids.Nodup →
      aids.foldl (fun xs aid => updateAccessoryQty xs aid delta) accessories
        = accessories.map (fun a =>
            if a.id ∈ aids then
              { a with availableQuantity := a.availableQuantity + delta }
            else a) := by
  intro aids
  induction aids with
  | nil =>
    intro accessories delta _
    simp
  | cons aid rest ih =>
    intro accessories delta h
    rcases List.nodup_cons.mp h with ⟨hni, hrest⟩
    rw [List.foldl_cons, ih (updateAccessoryQty accessories aid delta) delta hrest]
    unfold updateAccessoryQty
    rw [List.map_map]
    refine List.map_congr_left ?_
    intro a _
    by_cases h1 : a.id = aid
    · simp [Function.comp, h1, hni, List.mem_cons]
    · simp [Function.comp, h1, List.mem_cons]

theorem adjust_consoles_eq (store : Store) (r : Rental) (delta : ℤ) :
    (adjustRentalStock store r delta).consoles
      = store.consoles.map (fun c =>
          if r.consoleId = some c.id then
            { c with availableQuantity := c.availableQuantity + delta }
          else c) := by
  unfold adjustRentalStock
  cases hc : r.consoleId with
  | none =>
    simp only []
    have : store.consoles.map (fun c =>
        if (none : Option ℕ) = some c.id then
          { c with availableQuantity := c.availableQuantity + delta }
        else c) = store.consoles.map (fun c => c) := by
      refine List.map_congr_left ?_
      intro c _
      simp
    rw [this, List.map_id']
  | some cid =>
    simp only []
    unfold updateConsoleQty
    refine List.map_congr_left ?_
    intro c _
    by_cases h : c.id = cid
    · simp [h]
    · have h2 : ¬ (some cid = some c.id) := by
        simp [Ne.symm h]
      simp [h, h2]

theorem adjust_games_eq (store : Store) (r : Rental) (delta : ℤ)
    (h : r.gameIds.Nodup) :
    (adjustRentalStock store r delta).games
      = store.games.map (fun g =>
          if g.id ∈ r.gameIds then
            { g with availableQuantity := g.availableQuantity + delta }
          else g) := by
  unfold adjustRentalStock
  exact foldl_updateGameQty_eq r.gameIds store.games delta h

theorem adjust_accessories_eq (store : Store) (r : Rental) (delta : ℤ)
    (h : r.accessoryIds.Nodup) :
    (adjustRentalStock store r delta).accessories
      = store.accessories.map (fun a =>
          if a.id ∈ r.accessoryIds then
            { a with availableQuantity := a.availableQuantity + delta }
          else a) := by
  unfold adjustRentalStock
  exact foldl_updateAccessoryQty_eq r.accessoryIds store.accessories delta h

theorem adjust_rentals_eq (store : Store) (r : Rental) (delta : ℤ) :
    (adjustRentalStock store r delta).rentals = store.rentals := rfl

theorem find?_console_self (consoles : List Console)
    (h : (consoles.map Console.id).Nodup) (c : Console) (hc : c ∈ consoles) :
    consoles.find? (fun x => decide (x.id = c.id)) = some c := by
  induction consoles with
  | nil => simp at hc
  | cons x rest ih =>
    simp only [List.map_cons] at h
    rcases List.nodup_cons.mp h with ⟨hnx, hrest⟩
    by_cases hx : x.id = c.id
    · rcases List.mem_cons.mp hc with rfl | hcr
      · simp [List.find?_cons_of_pos, hx]
      · exact absurd (hx ▸ List.mem_map.mpr ⟨c, hcr, rfl⟩) hnx
    · have hcr : c ∈ rest := by
        rcases List.mem_cons.mp hc with rfl | hcr
        · exact absurd rfl hx
        · exact hcr
      rw [List.find?_cons_of_neg _ (by simp [hx])]
      exact ih hrest hcr

theorem find?_game_self (games : List Game)
    (h : (games.map Game.id).Nodup) (g : Game) (hg : g ∈ games) :
    games.find? (fun x => decide (x.id = g.id)) = some g := by
  induction games with
  | nil => simp at hg
  | cons x rest ih =>
    simp only [List.map_cons] at h
    rcases List.nodup_cons.mp h with ⟨hnx, hrest⟩
    by_cases hx : x.id = g.id
    · rcases List.mem_cons.mp hg with rfl | hgr
      · simp [List.find?_cons_of_pos, hx]
      · exact absurd (hx ▸ List.mem_map.mpr ⟨g, hgr, rfl⟩) hnx
    · have hgr : g ∈ rest := by
        rcases List.mem_cons.mp hg with rfl | hgr
        · exact absurd rfl hx
        · exact hgr
      rw [List.find?_cons_of_neg _ (by simp [hx])]
      exact ih hrest hgr

theorem find?_accessory_self (accessories : List Accessory)
    (h : (accessories.map Accessory.id).Nodup) (a : Accessory)
    (ha : a ∈ accessories) :
    accessories.find? (fun x => decide (x.id = a.id)) = some a := by
  induction accessories with
  | nil => simp at ha
  | cons x rest ih =>
    simp only [List.map_cons] at h
    rcases List.nodup_cons.mp h with ⟨hnx, hrest⟩
    by_cases hx : x.id = a.id
    · rcases List.mem_cons.mp ha with rfl | har
      · simp [List.find?_cons_of_pos, hx]
      · exact absurd (hx ▸ List.mem_map.mpr ⟨a, har, rfl⟩) hnx
    · have har : a ∈ rest := by
        rcases List.mem_cons.mp ha with rfl | har
        · exact absurd rfl hx
        · exact har
      rw [List.find?_cons_of_neg _ (by simp [hx])]
      exact ih hrest har

theorem resolveGames_mem (store : Store) :
    ∀ (gids : List ℕ) (games : List Game),
      resolveGames store gids = some games →
      ∀ gid ∈ gids, ∃ g ∈ games, findGame store gid = some g := by
  intro gids
  induction gids with
  | nil =>
    intro games _ gid hgid
    simp at hgid
  | cons g0 rest ih =>
    intro games h gid hgid
    unfold resolveGames at h
    cases hf : findGame store g0 with
    | none => rw [hf] at h; simp at h
    | some g =>
      cases hr : resolveGames store rest with
      | none => rw [hf, hr] at h; simp at h
      | some gs =>
        rw [hf, hr] at h
        simp only [Option.some.injEq] at h
        subst h
        rcases List.mem_cons.mp hgid with rfl | hgid'
        · exact ⟨g, List.mem_cons_self g gs, hf⟩
        · obtain ⟨g', hg', hfind⟩ := ih gs hr gid hgid'
          exact ⟨g', List.mem_cons_of_mem g hg', hfind⟩

theorem resolveAccessories_mem (store : Store) :
    ∀ (aids : List ℕ) (accessories : List Accessory),
      resolveAccessories store aids = some accessories →
      ∀ aid ∈ aids, ∃ a ∈ accessories, findAccessory store aid = some a := by
  intro aids
  induction aids with
  | nil =>
    intro accessories _ aid haid
    simp at haid
  | cons a0 rest ih =>
    intro accessories h aid haid
    unfold resolveAccessories at h
    cases hf : findAccessory store a0 with
    | none => rw [hf] at h; simp at h
    | some a =>
      cases hr : resolveAccessories store rest with
      | none => rw [hf, hr] at h; simp at h
      | some rest' =>
        rw [hf, hr] at h
        simp only [Option.some.injEq] at h
        subst h
        rcases List.mem_cons.mp haid with rfl | haid'
        · exact ⟨a, List.mem_cons_self a rest', hf⟩
        · obtain ⟨a', ha', hfind⟩ := ih rest' hr aid haid'
          exact ⟨a', List.mem_cons_of_mem a ha', hfind⟩

theorem createRental_ok {store store' : Store} {consoleId : Option ℕ}
    {gameIds accessoryIds : List ℕ} {rentalType : RentalType} {s e : Day}
    (h : createRental store consoleId gameIds accessoryIds rentalType s e
      = .ok store') :
    ∃ console games accessories pricing,
      resolveConsole store consoleId = some console
    ∧ resolveGames store gameIds = some games
    ∧ resolveAccessories store accessoryIds = some accessories
    ∧ ¬ (console = none ∧ games = [] ∧ accessories = [])
    ∧ consoleStockError console = none
    ∧ firstOutOfStockGame games = none
    ∧ firstOutOfStockAccessory accessories = none
    ∧ calculateRentalPrice console games accessories rentalType s e = .ok pricing
    ∧ store' = decrementStock
        { store with rentals := store.rentals ++
            [newRentalRow store consoleId gameIds accessoryIds rentalType s e pricing] }
        (newRentalRow store consoleId gameIds accessoryIds rentalType s e pricing) := by
  unfold createRental at h
  cases h1 : resolveConsole store consoleId with
  | none => rw [h1] at h; simp at h
  | some console =>
    cases h2 : resolveGames store gameIds with
    | none => rw [h1, h2] at h; simp at h
    | some games =>
      cases h3 : resolveAccessories store accessoryIds with
      | none => rw [h1, h2, h3] at h; simp at h
      | some accessories =>
        rw [h1, h2, h3] at h
        simp only [] at h
        by_cases h4 : console = none ∧ games = [] ∧ accessories = []
        · rw [if_pos h4] at h; simp at h
        · rw [if_neg h4] at h
          cases h5 : consoleStockError console with
          | some msg => rw [h5] at h; simp at h
          | none =>
            rw [h5] at h
            cases h6 : firstOutOfStockGame games with
            | some g => rw [h6] at h; simp at h
            | none =>
              rw [h6] at h
              cases h7 : firstOutOfStockAccessory accessories with
              | some a => rw [h7] at h; simp at h
              | none =>
                rw [h7] at h
                cases h8 : calculateRentalPrice console games accessories
                    rentalType s e with
                | error msg => rw [h8] at h; simp at h
                | ok pricing =>
                  rw [h8] at h
                  simp only [Except.ok.injEq] at h
                  exact ⟨console, games, accessories, pricing, rfl, rfl, rfl,
                    h4, h5, h6, h7, h8, h.symm⟩

theorem StoreInv.create_preserved {store store' : Store} (inv : StoreInv store)
    {consoleId : Option ℕ} {gameIds accessoryIds : List ℕ}
    {rentalType : RentalType} {s e : Day}
    (h : createRental store consoleId gameIds accessoryIds rentalType s e
      = .ok store') : StoreInv store' := by
  obtain ⟨console, games, accessories, pricing, h1, h2, h3, _h4, h5, h6, h7,
    _h8, hst⟩ := createRental_ok h
  subst hst
  set r := newRentalRow store consoleId gameIds accessoryIds rentalType s e
    pricing with hrdef
  -- guard consequences
  have hconsoleok : ∀ c ∈ store.consoles, consoleId = some c.id →
      1 ≤ c.availableQuantity := by
    intro c hc hcid
    rw [hcid] at h1
    simp only [resolveConsole] at h1
    have hfc : findConsole store c.id = some c :=
      find?_console_self store.consoles inv.consoleIdsNodup c hc
    rw [hfc] at h1
    simp only [Option.map_some', Option.some.injEq] at h1
    rw [← h1] at h5
    simp only [consoleStockError] at h5
    by_cases hlt : c.availableQuantity < 1
    · rw [if_pos hlt] at h5
      simp at h5
    · omega
  have hgameok : ∀ g ∈ store.games, g.id ∈ gameIds →
      1 ≤ g.availableQuantity := by
    intro g hg hgid
    obtain ⟨g', hg', hfind⟩ := resolveGames_mem store gameIds games h2 g.id hgid
    have hfg : findGame store g.id = some g :=
      find?_game_self store.games inv.gameIdsNodup g hg
    rw [hfg] at hfind
    have hgg : g' = g := by
      injection hfind with hh
      exact hh.symm
    subst hgg
    unfold firstOutOfStockGame at h6
    have hnone := List.find?_eq_none.mp h6 g' hg'
    simp at hnone
    omega
  have haccok : ∀ a ∈ store.accessories, a.id ∈ accessoryIds →
      1 ≤ a.availableQuantity := by
    intro a ha haid
    obtain ⟨a', ha', hfind⟩ :=
      resolveAccessories_mem store accessoryIds accessories h3 a.id haid
    have hfa : findAccessory store a.id = some a :=
      find?_accessory_self store.accessories inv.accessoryIdsNodup a ha
    rw [hfa] at hfind
    have haa : a' = a := by
      injection hfind with hh
      exact hh.symm
    subst haa
    unfold firstOutOfStockAccessory at h7
    have hnone := List.find?_eq_none.mp h7 a' ha'
    simp at hnone
    omega
  -- facts about the new rental row
  have hrstat : isBlockingStatus r.status = true := rfl
  have hgdedup : r.gameIds.Nodup := List.nodup_dedup gameIds
  have hadedup : r.accessoryIds.Nodup := List.nodup_dedup accessoryIds
  -- the three stock lists after the decrement, as maps
  have hcs : (decrementStock { store with rentals := store.rentals ++ [r] } r).consoles
      = store.consoles.map (fun c =>
          if r.consoleId = some c.id then
            { c with availableQuantity := c.availableQuantity + (-1) }
          else c) := by
    unfold decrementStock
    rw [adjust_consoles_eq]
  have hgs : (decrementStock { store with rentals := store.rentals ++ [r] } r).games
      = store.games.map (fun g =>
          if g.id ∈ r.gameIds then
            { g with availableQuantity := g.availableQuantity + (-1) }
          else g) := by
    unfold decrementStock
    rw [adjust_games_eq _ _ _ hgdedup]
  have has : (decrementStock { store with rentals := store.rentals ++ [r] } r).accessories
      = store.accessories.map (fun a =>
          if a.id ∈ r.accessoryIds then
            { a with availableQuantity := a.availableQuantity + (-1) }
          else a) := by
    unfold decrementStock
    rw [adjust_accessories_eq _ _ _ hadedup]
  have hrent : (decrementStock { store with rentals := store.rentals ++ [r] } r).rentals
      = store.rentals ++ [r] := rfl
  refine ⟨?_, ?_, ?_, ?_, ?_, ?_, ?_, ?_, ?_, ?_, ?_⟩
  · -- console ids preserved
    rw [hcs, List.map_map]
    have : (Console.id ∘ fun c =>
        if r.consoleId = some c.id then
          { c with availableQuantity := c.availableQuantity + (-1) }
        else c) = Console.id := by
      funext c
      by_cases hh : r.consoleId = some c.id <;> simp [Function.comp, hh]
    rw [this]
    exact inv.consoleIdsNodup
  · rw [hgs, List.map_map]
    have : (Game.id ∘ fun g =>
        if g.id ∈ r.gameIds then
          { g with availableQuantity := g.availableQuantity + (-1) }
        else g) = Game.id := by
      funext g
      by_cases hh : g.id ∈ r.gameIds <;> simp [Function.comp, hh]
    rw [this]
    exact inv.gameIdsNodup
  · rw [has, List.map_map]
    have : (Accessory.id ∘ fun a =>
        if a.id ∈ r.accessoryIds then
          { a with availableQuantity := a.availableQuantity + (-1) }
        else a) = Accessory.id := by
      funext a
      by_cases hh : a.id ∈ r.accessoryIds <;> simp [Function.comp, hh]
    rw [this]
    exact inv.accessoryIdsNodup
  · -- rental game id sets stay deduplicated
    intro x hx
    rw [hrent] at hx
    rcases List.mem_append.mp hx with hx | hx
    · exact inv.rentalGamesNodup x hx
    · rw [List.mem_singleton] at hx
      subst hx
      exact hgdedup
  · intro x hx
    rw [hrent] at hx
    rcases List.mem_append.mp hx with hx | hx
    · exact inv.rentalAccessoriesNodup x hx
    · rw [List.mem_singleton] at hx
      subst hx
      exact hadedup
  · -- console balance
    intro c' hc'
    rw [hcs] at hc'
    obtain ⟨c, hc, rfl⟩ := List.mem_map.mp hc'
    rw [hrent]
    have hbal := inv.consoleBalance c hc
    by_cases hh : r.consoleId = some c.id
    · have hhold : r.holds (ItemRef.console c.id) = true := by
        simp [Rental.holds, hh]
      simp only [if_pos hh]
      rw [countHolding_append]
      have hta : (isBlockingStatus r.status && r.holds (ItemRef.console c.id)) = true := by
        rw [hrstat, hhold]
        rfl
      rw [hta]
      simp
      omega
    · have hhold : r.holds (ItemRef.console c.id) = false := by
        simp [Rental.holds, hh]
      simp only [if_neg hh]
      rw [countHolding_append]
      have hta : (isBlockingStatus r.status && r.holds (ItemRef.console c.id)) = false := by
        rw [hrstat, hhold]
        rfl
      rw [hta]
      simp
      omega
  · -- game balance
    intro g' hg'
    rw [hgs] at hg'
    obtain ⟨g, hg, rfl⟩ := List.mem_map.mp hg'
    rw [hrent]
    have hbal := inv.gameBalance g hg
    by_cases hh : g.id ∈ r.gameIds
    · have hhold : r.holds (ItemRef.game g.id) = true := by
        simp [Rental.holds, hh]
      simp only [if_pos hh]
      rw [countHolding_append]
      have hta : (isBlockingStatus r.status && r.holds (ItemRef.game g.id)) = true := by
        rw [hrstat, hhold]
        rfl
      rw [hta]
      simp
      omega
    · have hhold : r.holds (ItemRef.game g.id) = false := by
        simp [Rental.holds, hh]
      simp only [if_neg hh]
      rw [countHolding_append]
      have hta : (isBlockingStatus r.status && r.holds (ItemRef.game g.id)) = false := by
        rw [hrstat, hhold]
        rfl
      rw [hta]
      simp
      omega
  · -- accessory balance
    intro a' ha'
    rw [has] at ha'
    obtain ⟨a, ha, rfl⟩ := List.mem_map.mp ha'
    rw [hrent]
    have hbal := inv.accessoryBalance a ha
    by_cases hh : a.id ∈ r.accessoryIds
    · have hhold : r.holds (ItemRef.accessory a.id) = true := by
        simp [Rental.holds, hh]
      simp only [if_pos hh]
      rw [countHolding_append]
      have hta : (isBlockingStatus r.status && r.holds (ItemRef.accessory a.id)) = true := by
        rw [hrstat, hhold]
        rfl
      rw [hta]
      simp
      omega
    · have hhold : r.holds (ItemRef.accessory a.id) = false := by
        simp [Rental.holds, hh]
      simp only [if_neg hh]
      rw [countHolding_append]
      have hta : (isBlockingStatus r.status && r.holds (ItemRef.accessory a.id)) = false := by
        rw [hrstat, hhold]
        rfl
      rw [hta]
      simp
      omega
  · -- console nonneg
    intro c' hc'
    rw [hcs] at hc'
    obtain ⟨c, hc, rfl⟩ := List.mem_map.mp hc'
    by_cases hh : r.consoleId = some c.id
    · have := hconsoleok c hc hh
      simp only [if_pos hh]
      omega
    · simp only [if_neg hh]
      exact inv.consoleNonneg c hc
  · -- game nonneg
    intro g' hg'
    rw [hgs] at hg'
    obtain ⟨g, hg, rfl⟩ := List.mem_map.mp hg'
    by_cases hh : g.id ∈ r.gameIds
    · have hmem : g.id ∈ gameIds := List.mem_dedup.mp hh
      have := hgameok g hg hmem
      simp only [if_pos hh]
      simp
      omega
    · simp only [if_neg hh]
      exact inv.gameNonneg g hg
  · -- accessory nonneg
    intro a' ha'
    rw [has] at ha'
    obtain ⟨a, ha, rfl⟩ := List.mem_map.mp ha'
    by_cases hh : a.id ∈ r.accessoryIds
    · have hmem : a.id ∈ accessoryIds := List.mem_dedup.mp hh
      have := haccok a ha hmem
      simp only [if_pos hh]
      simp
      omega
    · simp only [if_neg hh]
      exact inv.accessoryNonneg a ha

theorem mem_of_getElem? {l : List Rental} {i : ℕ} {r : Rental}
    (h : l[i]? = some r) : r ∈ l := by
  induction l generalizing i with
  | nil => simp at h
  | cons x rest ih =>
    cases i with
    | zero =>
      simp only [List.getElem?_cons_zero, Option.some.injEq] at h
      subst h
      exact List.mem_cons_self x rest
    | succ n =>
      simp only [List.getElem?_cons_succ] at h
      exact List.mem_cons_of_mem x (ih h)

theorem StoreInv.set_same {store : Store} (inv : StoreInv store) {i : ℕ}
    {r r' : Rental} (hr : store.rentals[i]? = some r)
    (hb : isBlockingStatus r'.status = isBlockingStatus r.status)
    (hc : r'.consoleId = r.consoleId)
    (hg : r'.gameIds = r.gameIds)
    (ha : r'.accessoryIds = r.accessoryIds) :
    StoreInv { store with rentals := store.rentals.set i r' } := by
  have hrmem : r ∈ store.rentals := mem_of_getElem? hr
  have hholds : ∀ ref, r'.holds ref = r.holds ref := by
    intro ref
    cases ref <;> simp [Rental.holds, hc, hg, ha]
  have hcount : ∀ ref, countHolding (store.rentals.set i r') ref
      = countHolding store.rentals ref := by
    intro ref
    rw [countHolding_set store.rentals i r r' ref hr, hb, hholds]
    ring
  refine ⟨inv.consoleIdsNodup, inv.gameIdsNodup, inv.accessoryIdsNodup,
    ?_, ?_, ?_, ?_, ?_, inv.consoleNonneg, inv.gameNonneg, inv.accessoryNonneg⟩
  · intro x hx
    rcases List.mem_or_eq_of_mem_set hx with hx | rfl
    · exact inv.rentalGamesNodup x hx
    · rw [hg]
      exact inv.rentalGamesNodup r hrmem
  · intro x hx
    rcases List.mem_or_eq_of_mem_set hx with hx | rfl
    · exact inv.rentalAccessoriesNodup x hx
    · rw [ha]
      exact inv.rentalAccessoriesNodup r hrmem
  · intro c hc2
    rw [hcount]
    exact inv.consoleBalance c hc2
  · intro g hg2
    rw [hcount]
    exact inv.gameBalance g hg2
  · intro a ha2
    rw [hcount]
    exact inv.accessoryBalance a ha2

theorem StoreInv.terminate {store : Store} (inv : StoreInv store) {i : ℕ}
    {r r' : Rental} (hr : store.rentals[i]? = some r)
    (hbr : isBlockingStatus r.status = true)
    (hbr' : isBlockingStatus r'.status = false)
    (hc : r'.consoleId = r.consoleId) (hg : r'.gameIds = r.gameIds)
    (ha : r'.accessoryIds = r.accessoryIds) :
    StoreInv (restoreStock { store with rentals := store.rentals.set i r' } r') := by
  have hrmem : r ∈ store.rentals := mem_of_getElem? hr
  have hgnodup : r'.gameIds.Nodup := hg ▸ inv.rentalGamesNodup r hrmem
  have hanodup : r'.accessoryIds.Nodup := ha ▸ inv.rentalAccessoriesNodup r hrmem
  have hholds : ∀ ref, r'.holds ref = r.holds ref := by
    intro ref
    cases ref <;> simp [Rental.holds, hc, hg, ha]
  have hcount : ∀ ref, countHolding (store.rentals.set i r') ref
      = countHolding store.rentals ref - (if r.holds ref then 1 else 0) := by
    intro ref
    rw [countHolding_set store.rentals i r r' ref hr, hbr, hbr', hholds]
    simp
  have hcs : (restoreStock { store with rentals := store.rentals.set i r' } r').consoles
      = store.consoles.map (fun c =>
          if r'.consoleId = some c.id then
            { c with availableQuantity := c.availableQuantity + 1 }
          else c) := by
    unfold restoreStock
    rw [adjust_consoles_eq]
  have hgs : (restoreStock { store with rentals := store.rentals.set i r' } r').games
      = store.games.map (fun g =>
          if g.id ∈ r'.gameIds then
            { g with availableQuantity := g.availableQuantity + 1 }
          else g) := by
    unfold restoreStock
    rw [adjust_games_eq _ _ _ hgnodup]
  have has : (restoreStock { store with rentals := store.rentals.set i r' } r').accessories
      = store.accessories.map (fun a =>
          if a.id ∈ r'.accessoryIds then
            { a with availableQuantity := a.availableQuantity + 1 }
          else a) := by
    unfold restoreStock
    rw [adjust_accessories_eq _ _ _ hanodup]
  have hrent : (restoreStock { store with rentals := store.rentals.set i r' } r').rentals
      = store.rentals.set i r' := rfl
  refine ⟨?_, ?_, ?_, ?_, ?_, ?_, ?_, ?_, ?_, ?_, ?_⟩
  · rw [hcs, List.map_map]
    have : (Console.id ∘ fun c =>
        if r'.consoleId = some c.id then
          { c with availableQuantity := c.availableQuantity + 1 }
        else c) = Console.id := by
      funext c
      by_cases hh : r'.consoleId = some c.id <;> simp [Function.comp, hh]
    rw [this]
    exact inv.consoleIdsNodup
  · rw [hgs, List.map_map]
    have : (Game.id ∘ fun g =>
        if g.id ∈ r'.gameIds then
          { g with availableQuantity := g.availableQuantity + 1 }
        else g) = Game.id := by
      funext g
      by_cases hh : g.id ∈ r'.gameIds <;> simp [Function.comp, hh]
    rw [this]
    exact inv.gameIdsNodup
  · rw [has, List.map_map]
    have : (Accessory.id ∘ fun a =>
        if a.id ∈ r'.accessoryIds then
          { a with availableQuantity := a.availableQuantity + 1 }
        else a) = Accessory.id := by
      funext a
      by_cases hh : a.id ∈ r'.accessoryIds <;> simp [Function.comp, hh]
    rw [this]
    exact inv.accessoryIdsNodup
  · intro x hx
    rw [hrent] at hx
    rcases List.mem_or_eq_of_mem_set hx with hx | rfl
    · exact inv.rentalGamesNodup x hx
    · exact hgnodup
  · intro x hx
    rw [hrent] at hx
    rcases List.mem_or_eq_of_mem_set hx with hx | rfl
    · exact inv.rentalAccessoriesNodup x hx
    · exact hanodup
  · intro c' hc2
    rw [hcs] at hc2
    obtain ⟨c, hcm, rfl⟩ := List.mem_map.mp hc2
    rw [hrent, hcount]
    have hbal := inv.consoleBalance c hcm
    by_cases hh : r'.consoleId = some c.id
    · have hold : r.holds (ItemRef.console c.id) = true := by
        rw [← hholds]
        simp [Rental.holds, hh]
      simp only [if_pos hh]
      rw [hold]
      simp
      omega
    · have hold : r.holds (ItemRef.console c.id) = false := by
        rw [← hholds]
        simp [Rental.holds, hh]
      simp only [if_neg hh]
      rw [hold]
      simp
      omega
  · intro g' hg2
    rw [hgs] at hg2
    obtain ⟨g, hgm, rfl⟩ := List.mem_map.mp hg2
    rw [hrent, hcount]
    have hbal := inv.gameBalance g hgm
    by_cases hh : g.id ∈ r'.gameIds
    · have hold : r.holds (ItemRef.game g.id) = true := by
        rw [← hholds]
        simp [Rental.holds, hh]
      simp only [if_pos hh]
      rw [hold]
      simp
      omega
    · have hold : r.holds (ItemRef.game g.id) = false := by
        rw [← hholds]
        simp [Rental.holds, hh]
      simp only [if_neg hh]
      rw [hold]
      simp
      omega
  · intro a' ha2
    rw [has] at ha2
    obtain ⟨a, ham, rfl⟩ := List.mem_map.mp ha2
    rw [hrent, hcount]
    have hbal := inv.accessoryBalance a ham
    by_cases hh : a.id ∈ r'.accessoryIds
    · have hold : r.holds (ItemRef.accessory a.id) = true := by
        rw [← hholds]
        simp [Rental.holds, hh]
      simp only [if_pos hh]
      rw [hold]
      simp
      omega
    · have hold : r.holds (ItemRef.accessory a.id) = false := by
        rw [← hholds]
        simp [Rental.holds, hh]
      simp only [if_neg hh]
      rw [hold]
      simp
      omega
  · intro c' hc2
    rw [hcs] at hc2
    obtain ⟨c, hcm, rfl⟩ := List.mem_map.mp hc2
    have := inv.consoleNonneg c hcm
    by_cases hh : r'.consoleId = some c.id
    · simp only [if_pos hh]
      omega
    · simp only [if_neg hh]
      omega
  · intro g' hg2
    rw [hgs] at hg2
    obtain ⟨g, hgm, rfl⟩ := List.mem_map.mp hg2
    have := inv.gameNonneg g hgm
    by_cases hh : g.id ∈ r'.gameIds
    · simp only [if_pos hh]
      omega
    · simp only [if_neg hh]
      omega
  · intro a' ha2
    rw [has] at ha2
    obtain ⟨a, ham, rfl⟩ := List.mem_map.mp ha2
    have := inv.accessoryNonneg a ham
    by_cases hh : a.id ∈ r'.accessoryIds
    · simp only [if_pos hh]
      omega
    · simp only [if_neg hh]
      omega

theorem markRentalActive_ok {store store' : Store} {i : ℕ}
    (h : markRentalActive store i = .ok store') :
    ∃ r, store.rentals[i]? = some r ∧ r.status = .confirmed
      ∧ store' = { store with
          rentals := store.rentals.set i ({ r with status := .active }) } := by
  unfold markRentalActive at h
  cases hr : store.rentals[i]? with
  | none => rw [hr] at h; simp at h
  | some r =>
    rw [hr] at h
    simp only [] at h
    by_cases hs : r.status = .confirmed
    · rw [if_pos hs] at h
      simp only [Except.ok.injEq] at h
      exact ⟨r, rfl, hs, h.symm⟩
    · rw [if_neg hs] at h
      simp at h

theorem returnRental_ok {store store' : Store} {i : ℕ} {d : Day}
    (h : returnRental store i d = .ok store') :
    ∃ r, store.rentals[i]? = some r
      ∧ (r.status = .active ∨ r.status = .late ∨ r.status = .overdue)
      ∧ store' = restoreStock { store with rentals := store.rentals.set i ({ r with actualReturnDate := some d, lateFee := calculateLateFee r d, status := .returned }) } ({ r with actualReturnDate := some d, lateFee := calculateLateFee r d, status := .returned }) := by
  unfold returnRental at h
  cases hr : store.rentals[i]? with
  | none => rw [hr] at h; simp at h
  | some r =>
    rw [hr] at h
    simp only [] at h
    by_cases hs : r.status = .active ∨ r.status = .late ∨ r.status = .overdue
    · rw [if_pos hs] at h
      simp only [Except.ok.injEq] at h
      exact ⟨r, rfl, hs, h.symm⟩
    · rw [if_neg hs] at h
      simp at h

theorem cancelRental_ok {store store' : Store} {i : ℕ}
    (h : cancelRental store i = .ok store') :
    ∃ r, store.rentals[i]? = some r
      ∧ (r.status = .pending ∨ r.status = .confirmed)
      ∧ store' = restoreStock
          { store with rentals := store.rentals.set i ({ r with status := .cancelled }) }
          ({ r with status := .cancelled }) := by
  unfold cancelRental at h
  cases hr : store.rentals[i]? with
  | none => rw [hr] at h; simp at h
  | some r =>
    rw [hr] at h
    simp only [] at h
    by_cases hs : r.status = .pending ∨ r.status = .confirmed
    · rw [if_pos hs] at h
      simp only [Except.ok.injEq] at h
      exact ⟨r, rfl, hs, h.symm⟩
    · rw [if_neg hs] at h
      simp at h

theorem markRentalLateR_fields (r : Rental) (today : Day) :
    (markRentalLateR r today).consoleId = r.consoleId
  ∧ (markRentalLateR r today).gameIds = r.gameIds
  ∧ (markRentalLateR r today).accessoryIds = r.accessoryIds
  ∧ isBlockingStatus (markRentalLateR r today).status
      = isBlockingStatus r.status := by
  unfold markRentalLateR
  by_cases h1 : r.status ≠ .active
  · rw [if_pos h1]
    exact ⟨rfl, rfl, rfl, rfl⟩
  · rw [if_neg h1]
    push_neg at h1
    by_cases h2 : r.isOverdue today
    · rw [if_pos h2]
      refine ⟨rfl, rfl, rfl, ?_⟩
      rw [h1]
      rfl
    · rw [if_neg h2]
      exact ⟨rfl, rfl, rfl, rfl⟩

theorem step_preserves {store : Store} (inv : StoreInv store) (op : Op) :
    StoreInv (step store op) := by
  cases op with
  | create consoleId gameIds accessoryIds rentalType s e =>
    simp only [step]
    cases hcr : createRental store consoleId gameIds accessoryIds rentalType s e with
    | ok store' => exact inv.create_preserved hcr
    | error msg => exact inv
  | confirm i =>
    simp only [step]
    unfold confirmRental
    cases hr : store.rentals[i]? with
    | none => exact inv
    | some r =>
      simp only []
      by_cases hs : r.status = .pending
      · rw [if_pos hs]
        exact inv.set_same hr (by rw [hs]; rfl) rfl rfl rfl
      · rw [if_neg hs]
        exact inv
  | activate i =>
    simp only [step]
    cases ha : markRentalActive store i with
    | ok store' =>
      obtain ⟨r, hr, hs, rfl⟩ := markRentalActive_ok ha
      exact inv.set_same hr (by rw [hs]; rfl) rfl rfl rfl
    | error msg => exact inv
  | markLate i today =>
    simp only [step]
    unfold markRentalLate
    cases hr : store.rentals[i]? with
    | none => exact inv
    | some r =>
      obtain ⟨hc, hg, hacc, hb⟩ := markRentalLateR_fields r today
      exact inv.set_same hr hb hc hg hacc
  | ret i d =>
    simp only [step]
    cases hres : returnRental store i d with
    | ok store' =>
      obtain ⟨r, hr, hs, rfl⟩ := returnRental_ok hres
      refine inv.terminate hr ?_ rfl rfl rfl rfl
      rcases hs with h | h | h <;> rw [h] <;> rfl
    | error msg => exact inv
  | cancel i =>
    simp only [step]
    cases hres : cancelRental store i with
    | ok store' =>
      obtain ⟨r, hr, hs, rfl⟩ := cancelRental_ok hres
      refine inv.terminate hr ?_ rfl rfl rfl rfl
      rcases hs with h | h <;> rw [h] <;> rfl
    | error msg => exact inv

theorem run_preserves {store : Store} (inv : StoreInv store) (ops : List Op) :
    StoreInv (run store ops) := by
  induction ops generalizing store with
  | nil => exact inv
  | cons op rest ih => exact ih (step_preserves inv op)

/-! ## C3: stock conservation -/

/-- C3: starting from a store where every item is fully available (and ids
are well-formed), any sequence of lifecycle operations — create, confirm,
activate, mark-late, return, cancel, with failed guards leaving the store
unchanged — keeps `0 ≤ available_quantity ≤ stock_quantity` for every item,
and once every created rental has been returned or cancelled every
`available_quantity` equals `stock_quantity` again: creates decrement by
exactly one per held item, returns and cancels restore by exactly one, and
the status guards prevent any rental from restoring stock twice. -/
theorem C3_stock_conservation (store₀ : Store) (ops : List Op)
    (hrent : store₀.rentals = [])
    (hc : ∀ c ∈ store₀.consoles, c.availableQuantity = (c.stockQuantity : ℤ))
    (hg : ∀ g ∈ store₀.games, g.availableQuantity = (g.stockQuantity : ℤ))
    (ha : ∀ a ∈ store₀.accessories, a.availableQuantity = (a.stockQuantity : ℤ))
    (hcn : (store₀.consoles.map Console.id).Nodup)
    (hgn : (store₀.games.map Game.id).Nodup)
    (han : (store₀.accessories.map Accessory.id).Nodup) :
    (∀ c ∈ (run store₀ ops).consoles,
        0 ≤ c.availableQuantity ∧ c.availableQuantity ≤ (c.stockQuantity : ℤ))
  ∧ (∀ g ∈ (run store₀ ops).games,
        0 ≤ g.availableQuantity ∧ g.availableQuantity ≤ (g.stockQuantity : ℤ))
  ∧ (∀ a ∈ (run store₀ ops).accessories,
        0 ≤ a.availableQuantity ∧ a.availableQuantity ≤ (a.stockQuantity : ℤ))
  ∧ ((∀ r ∈ (run store₀ ops).rentals,
        r.status = .returned ∨ r.status = .cancelled) →
      (∀ c ∈ (run store₀ ops).consoles,
          c.availableQuantity = (c.stockQuantity : ℤ))
    ∧ (∀ g ∈ (run store₀ ops).games,
          g.availableQuantity = (g.stockQuantity : ℤ))
    ∧ (∀ a ∈ (run store₀ ops).accessories,
          a.availableQuantity = (a.stockQuantity : ℤ))) := by
  have inv0 : StoreInv store₀ := by
    refine ⟨hcn, hgn, han, ?_, ?_, ?_, ?_, ?_, ?_, ?_, ?_⟩
    · intro r hrm
      rw [hrent] at hrm
      simp at hrm
    · intro r hrm
      rw [hrent] at hrm
      simp at hrm
    · intro c hcm
      rw [hrent]
      have := hc c hcm
      simp [countHolding]
      omega
    · intro g hgm
      rw [hrent]
      have := hg g hgm
      simp [countHolding]
      omega
    · intro a ham
      rw [hrent]
      have := ha a ham
      simp [countHolding]
      omega
    · intro c hcm
      have := hc c hcm
      omega
    · intro g hgm
      have := hg g hgm
      omega
    · intro a ham
      have := ha a ham
      omega
  have inv := run_preserves inv0 ops
  refine ⟨?_, ?_, ?_, ?_⟩
  · intro c hcm
    have h1 := inv.consoleBalance c hcm
    have h2 := inv.consoleNonneg c hcm
    have h3 := countHolding_nonneg (run store₀ ops).rentals (.console c.id)
    omega
  · intro g hgm
    have h1 := inv.gameBalance g hgm
    have h2 := inv.gameNonneg g hgm
    have h3 := countHolding_nonneg (run store₀ ops).rentals (.game g.id)
    omega
  · intro a ham
    have h1 := inv.accessoryBalance a ham
    have h2 := inv.accessoryNonneg a ham
    have h3 := countHolding_nonneg (run store₀ ops).rentals (.accessory a.id)
    omega
  · intro hterm
    refine ⟨?_, ?_, ?_⟩
    · intro c hcm
      have h1 := inv.consoleBalance c hcm
      rw [countHolding_zero_of_terminal _ _ hterm] at h1
      omega
    · intro g hgm
      have h1 := inv.gameBalance g hgm
      rw [countHolding_zero_of_terminal _ _ hterm] at h1
      omega
    · intro a ham
      have h1 := inv.accessoryBalance a ham
      rw [countHolding_zero_of_terminal _ _ hterm] at h1
      omega

/-- Witness for C3: a concrete store and a concrete
create → confirm → activate → return sequence. -/
theorem C3_stock_conservation_witness :
    (∀ c ∈ (run sampleStore sampleOps).consoles,
        0 ≤ c.availableQuantity ∧ c.availableQuantity ≤ (c.stockQuantity : ℤ))
  ∧ (∀ g ∈ (run sampleStore sampleOps).games,
        0 ≤ g.availableQuantity ∧ g.availableQuantity ≤ (g.stockQuantity : ℤ))
  ∧ (∀ a ∈ (run sampleStore sampleOps).accessories,
        0 ≤ a.availableQuantity ∧ a.availableQuantity ≤ (a.stockQuantity : ℤ))
  ∧ ((∀ r ∈ (run sampleStore sampleOps).rentals,
        r.status = .returned ∨ r.status = .cancelled) →
      (∀ c ∈ (run sampleStore sampleOps).consoles,
          c.availableQuantity = (c.stockQuantity : ℤ))
    ∧ (∀ g ∈ (run sampleStore sampleOps).games,
          g.availableQuantity = (g.stockQuantity : ℤ))
    ∧ (∀ a ∈ (run sampleStore sampleOps).accessories,
          a.availableQuantity = (a.stockQuantity : ℤ))) :=
  C3_stock_conservation sampleStore sampleOps rfl
    (by decide) (by decide) (by decide) (by decide) (by decide) (by decide)

/-! ## C4: create_rental failure and success semantics -/

/-- C4: `create_rental` fails with a validation error when nothing is
selected and with a stock error when any selected item has
`available_quantity < 1`; on any failure the store is unchanged (no partial
reservation), and on success exactly one new pending rental row is appended
while `available_quantity` drops by one for every selected item, all in one
atomic unit. -/
theorem C4_create_rental (store : Store) (consoleId : Option ℕ)
    (gameIds accessoryIds : List ℕ) (rentalType : RentalType) (s e : Day) :
    (createRental store none [] [] rentalType s e
        = .error "At least a console, game, or accessory is required.")
  ∧ ((∃ cid, consoleId = some cid ∧ ∃ c, findConsole store cid = some c
        ∧ c.availableQuantity < 1) →
      ∃ msg, createRental store consoleId gameIds accessoryIds rentalType s e
        = .error msg)
  ∧ ((∃ gid ∈ gameIds, ∃ g, findGame store gid = some g
        ∧ g.availableQuantity < 1) →
      ∃ msg, createRental store consoleId gameIds accessoryIds rentalType s e
        = .error msg)
  ∧ ((∃ aid ∈ accessoryIds, ∃ a, findAccessory store aid = some a
        ∧ a.availableQuantity < 1) →
      ∃ msg, createRental store consoleId gameIds accessoryIds rentalType s e
        = .error msg)
  ∧ (∀ msg, createRental store consoleId gameIds accessoryIds rentalType s e
        = .error msg →
      step store (.create consoleId gameIds accessoryIds rentalType s e) = store)
  ∧ (∀ store', createRental store consoleId gameIds accessoryIds rentalType s e
        = .ok store' →
      ∃ pricing r,
        r = newRentalRow store consoleId gameIds accessoryIds rentalType s e pricing
      ∧ store'.rentals = store.rentals ++ [r]
      ∧ r.status = .pending
      ∧ store'.consoles = store.consoles.map (fun c =>
          if consoleId = some c.id then
            { c with availableQuantity := c.availableQuantity - 1 } else c)
      ∧ store'.games = store.games.map (fun g =>
          if g.id ∈ gameIds then
            { g with availableQuantity := g.availableQuantity - 1 } else g)
      ∧ store'.accessories = store.accessories.map (fun a =>
          if a.id ∈ accessoryIds then
            { a with availableQuantity := a.availableQuantity - 1 } else a)) := by
  refine ⟨rfl, ?_, ?_, ?_, ?_, ?_⟩
  · rintro ⟨cid, rfl, c, hfc, hlt⟩
    cases hres : createRental store (some cid) gameIds accessoryIds rentalType s e with
    | error msg => exact ⟨msg, rfl⟩
    | ok store' =>
      exfalso
      obtain ⟨console, games, accessories, pricing, h1, _h2, _h3, _h4, h5, _h6,
        _h7, _h8, _⟩ := createRental_ok hres
      simp only [resolveConsole] at h1
      rw [hfc] at h1
      simp only [Option.map_some', Option.some.injEq] at h1
      rw [← h1] at h5
      simp only [consoleStockError] at h5
      rw [if_pos hlt] at h5
      simp at h5
  · rintro ⟨gid, hgid, g, hfg, hlt⟩
    cases hres : createRental store consoleId gameIds accessoryIds rentalType s e with
    | error msg => exact ⟨msg, rfl⟩
    | ok store' =>
      exfalso
      obtain ⟨console, games, accessories, pricing, _h1, h2, _h3, _h4, _h5, h6,
        _h7, _h8, _⟩ := createRental_ok hres
      obtain ⟨g', hg', hfind⟩ := resolveGames_mem store gameIds games h2 gid hgid
      rw [hfg] at hfind
      have hgg : g = g' := Option.some.inj hfind
      unfold firstOutOfStockGame at h6
      have hnone := List.find?_eq_none.mp h6 g' hg'
      simp at hnone
      rw [hgg] at hlt
      omega
  · rintro ⟨aid, haid, a, hfa, hlt⟩
    cases hres : createRental store consoleId gameIds accessoryIds rentalType s e with
    | error msg => exact ⟨msg, rfl⟩
    | ok store' =>
      exfalso
      obtain ⟨console, games, accessories, pricing, _h1, _h2, h3, _h4, _h5, _h6,
        h7, _h8, _⟩ := createRental_ok hres
      obtain ⟨a', ha', hfind⟩ :=
        resolveAccessories_mem store accessoryIds accessories h3 aid haid
      rw [hfa] at hfind
      have haa : a = a' := Option.some.inj hfind
      unfold firstOutOfStockAccessory at h7
      have hnone := List.find?_eq_none.mp h7 a' ha'
      simp at hnone
      rw [haa] at hlt
      omega
  · intro msg hmsg
    simp only [step]
    rw [hmsg]
  · intro store' hok
    obtain ⟨console, games, accessories, pricing, _h1, _h2, _h3, _h4, _h5, _h6,
      _h7, _h8, hst⟩ := createRental_ok hok
    subst hst
    refine ⟨pricing, _, rfl, rfl, rfl, ?_, ?_, ?_⟩
    · rw [(by rfl : (decrementStock { store with rentals := store.rentals ++
          [newRentalRow store consoleId gameIds accessoryIds rentalType s e pricing] }
          (newRentalRow store consoleId gameIds accessoryIds rentalType s e pricing))
          = adjustRentalStock { store with rentals := store.rentals ++
          [newRentalRow store consoleId gameIds accessoryIds rentalType s e pricing] }
          (newRentalRow store consoleId gameIds accessoryIds rentalType s e pricing) (-1)),
        adjust_consoles_eq]
      refine List.map_congr_left ?_
      intro c _
      by_cases hh : consoleId = some c.id
      · simp [newRentalRow, hh, sub_eq_add_neg]
      · simp [newRentalRow, hh]
    · rw [(by rfl : (decrementStock { store with rentals := store.rentals ++
          [newRentalRow store consoleId gameIds accessoryIds rentalType s e pricing] }
          (newRentalRow store consoleId gameIds accessoryIds rentalType s e pricing))
          = adjustRentalStock { store with rentals := store.rentals ++
          [newRentalRow store consoleId gameIds accessoryIds rentalType s e pricing] }
          (newRentalRow store consoleId gameIds accessoryIds rentalType s e pricing) (-1)),
        adjust_games_eq _ _ _ (List.nodup_dedup gameIds)]
      refine List.map_congr_left ?_
      intro g _
      by_cases hh : g.id ∈ gameIds
      · simp [newRentalRow, List.mem_dedup, hh, sub_eq_add_neg]
      · simp [newRentalRow, List.mem_dedup, hh]
    · rw [(by rfl : (decrementStock { store with rentals := store.rentals ++
          [newRentalRow store consoleId gameIds accessoryIds rentalType s e pricing] }
          (newRentalRow store consoleId gameIds accessoryIds rentalType s e pricing))
          = adjustRentalStock { store with rentals := store.rentals ++
          [newRentalRow store consoleId gameIds accessoryIds rentalType s e pricing] }
          (newRentalRow store consoleId gameIds accessoryIds rentalType s e pricing) (-1)),
        adjust_accessories_eq _ _ _ (List.nodup_dedup accessoryIds)]
      refine List.map_congr_left ?_
      intro a _
      by_cases hh : a.id ∈ accessoryIds
      · simp [newRentalRow, List.mem_dedup, hh, sub_eq_add_neg]
      · simp [newRentalRow, List.mem_dedup, hh]

/-- Witness for C4: a concrete empty cart and a concrete out-of-stock
console both fail, and the failed creation leaves the store untouched. -/
theorem C4_create_rental_witness :
    (createRental outOfStockStore none [] [] .daily 0 5
        = .error "At least a console, game, or accessory is required.")
  ∧ (∃ msg, createRental outOfStockStore (some 5) [] [] .daily 0 5
        = .error msg)
  ∧ (∀ msg, createRental outOfStockStore (some 5) [] [] .daily 0 5
        = .error msg →
      step outOfStockStore (.create (some 5) [] [] .daily 0 5)
        = outOfStockStore) :=
  ⟨(C4_create_rental outOfStockStore none [] [] .daily 0 5).1,
   (C4_create_rental outOfStockStore (some 5) [] [] .daily 0 5).2.1
     ⟨5, rfl, emptyStockConsole, rfl, by decide⟩,
   (C4_create_rental outOfStockStore (some 5) [] [] .daily 0 5).2.2.2.2.1⟩

/-! ## C8: lifecycle guards -/

/-- C8: returning a rental not in active/late/overdue, cancelling one not in
pending/confirmed, or activating one not in confirmed raises a
caller-visible error with the store unchanged; `mark_rental_late` never
raises — it returns the rental unchanged whenever the status is not active
or the end date has not passed, otherwise sets the status to late and
snapshots the late fee, and re-running it is always a no-op. -/
theorem C8_lifecycle_guards (store : Store) (i : ℕ) (r : Rental)
    (d today : Day) (hr : store.rentals[i]? = some r) :
    (¬ (r.status = .active ∨ r.status = .late ∨ r.status = .overdue) →
        returnRental store i d = .error "Cannot return a rental in this status."
      ∧ step store (.ret i d) = store)
  ∧ (¬ (r.status = .pending ∨ r.status = .confirmed) →
        cancelRental store i = .error "Cannot cancel a rental in this status."
      ∧ step store (.cancel i) = store)
  ∧ (r.status ≠ .confirmed →
        markRentalActive store i
          = .error "Cannot activate a rental in this status."
      ∧ step store (.activate i) = store)
  ∧ (r.status ≠ .active ∨ ¬ (r.rentalEndDate < today) →
      markRentalLateR r today = r)
  ∧ (r.status = .active → r.rentalEndDate < today →
      markRentalLateR r today
        = { r with status := .late, lateFee := calculateLateFee r today })
  ∧ (∀ rr : Rental, ∀ t : Day,
      markRentalLateR (markRentalLateR rr t) t = markRentalLateR rr t) := by
  refine ⟨?_, ?_, ?_, ?_, ?_, ?_⟩
  · intro hs
    have he : returnRental store i d
        = .error "Cannot return a rental in this status." := by
      unfold returnRental
      rw [hr]
      simp only []
      rw [if_neg hs]
    refine ⟨he, ?_⟩
    simp only [step]
    rw [he]
  · intro hs
    have he : cancelRental store i
        = .error "Cannot cancel a rental in this status." := by
      unfold cancelRental
      rw [hr]
      simp only []
      rw [if_neg hs]
    refine ⟨he, ?_⟩
    simp only [step]
    rw [he]
  · intro hs
    have he : markRentalActive store i
        = .error "Cannot activate a rental in this status." := by
      unfold markRentalActive
      rw [hr]
      simp only []
      rw [if_neg hs]
    refine ⟨he, ?_⟩
    simp only [step]
    rw [he]
  · rintro (h1 | h2)
    · unfold markRentalLateR
      rw [if_pos h1]
    · unfold markRentalLateR
      by_cases h1 : r.status ≠ .active
      · rw [if_pos h1]
      · rw [if_neg h1]
        push_neg at h1
        have hov : r.isOverdue today = false := by
          simp [Rental.isOverdue, h2]
        rw [hov]
        simp
  · intro h1 h2
    unfold markRentalLateR
    rw [if_neg (fun hc => hc h1)]
    have hov : r.isOverdue today = true := by
      simp [Rental.isOverdue, h1, h2]
    rw [hov]
    simp
  · intro rr t
    by_cases h1 : rr.status ≠ .active
    · have hm : markRentalLateR rr t = rr := by
        unfold markRentalLateR
        rw [if_pos h1]
      rw [hm, hm]
    · push_neg at h1
      by_cases h2 : rr.isOverdue t
      · have hm : markRentalLateR rr t
            = { rr with status := .late, lateFee := calculateLateFee rr t } := by
          unfold markRentalLateR
          rw [if_neg (fun hc => hc h1), if_pos h2]
        rw [hm]
        unfold markRentalLateR
        rw [if_pos (by simp : ({ rr with status := RentalStatus.late, lateFee := calculateLateFee rr t } : Rental).status ≠ RentalStatus.active)]
      · have hm : markRentalLateR rr t = rr := by
          unfold markRentalLateR
          rw [if_neg (fun hc => hc h1), if_neg h2]
        rw [hm]
        exact hm

/-- Witness for C8: a concrete pending rental rejects return and activation,
the failed operations leave the store unchanged, and the late-marking sweep
is a no-op on it. -/
theorem C8_lifecycle_guards_witness :
    (returnRental guardStore 0 12
        = .error "Cannot return a rental in this status."
      ∧ step guardStore (.ret 0 12) = guardStore)
  ∧ (markRentalActive guardStore 0
        = .error "Cannot activate a rental in this status."
      ∧ step guardStore (.activate 0) = guardStore)
  ∧ markRentalLateR pendingRental 20 = pendingRental
  ∧ markRentalLateR (markRentalLateR pendingRental 20) 20
      = markRentalLateR pendingRental 20 :=
  ⟨(C8_lifecycle_guards guardStore 0 pendingRental 12 20 rfl).1 (by decide),
   (C8_lifecycle_guards guardStore 0 pendingRental 12 20 rfl).2.2.1 (by decide),
   (C8_lifecycle_guards guardStore 0 pendingRental 12 20 rfl).2.2.2.1
     (Or.inl (by decide)),
   (C8_lifecycle_guards guardStore 0 pendingRental 12 20 rfl).2.2.2.2.2
     pendingRental 20⟩

end ConsoleRental
